import Mathlib

/-!
Shallow embedding of the from-scratch AdaBoost trainer `Adaboost_scratch`
from `ML-practice/Supervised Learning/Ensemble Methods/Boosting methods.ipynb`.

The trainer is embedded over the real numbers, generically in the weak-learner
capability: a point type `π`, a learner type `L`, a fitting function
`fitf : List π → List Int → List ℝ → L` and a prediction function
`predictf : L → π → Int`.  This mirrors the notebook, where the weak learner
is an opaque object (an sklearn `DecisionTreeClassifier`) supplying
`fit(X, y, sample_weight)` and `predict(X)`.

Every numeric step of the Python function is translated literally:
the misclassification mask, the weighted error, the log-odds confidence
weight, the guarded multiplicative sample-weight update
`sample_weight *= np.exp(estimator_weight * incorrect * ((sample_weight>0)|(estimator_weight<0)))`,
the per-point sign of the confidence-weighted vote, the printed accuracy,
and the returned triple `(estimator_list, estimator_weight_list, sample_weight_list)`.
-/

namespace Boosting

/-- Elementwise misclassification mask: `incorrect = (y_predict != y)`. -/
def incorrectVec (y_predict y : List Int) : List Bool :=
  List.zipWith (fun a b => decide (a ≠ b)) y_predict y

/-- Numeric value of a boolean mask entry, as numpy coerces `True/False` to `1.0/0.0`. -/
def maskVal (b : Bool) : ℝ := if b then 1 else 0

/-- Weighted total of the set entries of a mask: the numerator of
`np.average(incorrect, weights = sample_weight)`. -/
def wdot (w : List ℝ) (inc : List Bool) : ℝ :=
  (List.zipWith (fun wi b => wi * maskVal b) w inc).sum

/-- The round's weighted error rate:
`estimator_error = np.mean(np.average(incorrect, weights = sample_weight, axis = 0))`,
which for a 1-D mask is the weighted mean `Σ wᵢ·incᵢ / Σ wᵢ`. -/
noncomputable def estimator_error (inc : List Bool) (w : List ℝ) : ℝ :=
  wdot w inc / w.sum

/-- The round's confidence weight:
`estimator_weight = learning_rate * np.log((1. - estimator_error)/estimator_error)`. -/
noncomputable def estimator_weight (learning_rate e : ℝ) : ℝ :=
  learning_rate * Real.log ((1 - e) / e)

/-- The sample-weight update
`sample_weight *= np.exp(estimator_weight * incorrect * ((sample_weight>0) | (estimator_weight<0)))`:
each entry is multiplied by the exponential of the elementwise product of the
confidence weight, the 0/1 misclassification mask and the 0/1 guard mask. -/
noncomputable def updateWeights (alpha : ℝ) (inc : List Bool) (w : List ℝ) : List ℝ :=
  List.zipWith
    (fun wi b => wi * Real.exp (alpha * maskVal b * (if 0 < wi ∨ alpha < 0 then 1 else 0)))
    w inc

/-- The mutable state of `Adaboost_scratch`'s loop: the five accumulator lists
and the current sample-weight vector. -/
structure AdaState (L : Type) where
  estimator_list : List L
  y_predict_list : List (List Int)
  estimator_error_list : List ℝ
  estimator_weight_list : List ℝ
  sample_weight_list : List (List ℝ)
  sample_weight : List ℝ

/-- State before the first round: empty accumulators and the uniform
`sample_weight = np.ones(N)/N`, whose copy is already appended to
`sample_weight_list`. -/
noncomputable def adaInit (L : Type) (N : ℕ) : AdaState L :=
  { estimator_list := []
    y_predict_list := []
    estimator_error_list := []
    estimator_weight_list := []
    sample_weight_list := [List.replicate N ((1 : ℝ) / N)]
    sample_weight := List.replicate N ((1 : ℝ) / N) }

variable {π L : Type}

/-- One iteration of the `for m in range(M)` loop: fit a fresh learner on the
current weights, record its predictions, weighted error and confidence weight,
update the sample weights and append everything to the accumulators. -/
noncomputable def adaRound (fitf : List π → List Int → List ℝ → L)
    (predictf : L → π → Int) (X : List π) (y : List Int) (lr : ℝ)
    (st : AdaState L) : AdaState L :=
  let estimator := fitf X y st.sample_weight
  let y_predict := X.map (predictf estimator)
  let inc := incorrectVec y_predict y
  let err := estimator_error inc st.sample_weight
  let alpha := estimator_weight lr err
  let sw := updateWeights alpha inc st.sample_weight
  { estimator_list := st.estimator_list ++ [estimator]
    y_predict_list := st.y_predict_list ++ [y_predict]
    estimator_error_list := st.estimator_error_list ++ [err]
    estimator_weight_list := st.estimator_weight_list ++ [alpha]
    sample_weight_list := st.sample_weight_list ++ [sw]
    sample_weight := sw }

/-- The loop state after `m` rounds, starting from the uniform initialization
(`N = len(y)`). -/
noncomputable def adaLoop (fitf : List π → List Int → List ℝ → L)
    (predictf : L → π → Int) (X : List π) (y : List Int) (lr : ℝ) : ℕ → AdaState L
  | 0 => adaInit L y.length
  | m + 1 => adaRound fitf predictf X y lr (adaLoop fitf predictf X y lr m)

/-- The misclassification mask produced in round `m` (0-indexed) of the loop. -/
noncomputable def roundIncorrect (fitf : List π → List Int → List ℝ → L)
    (predictf : L → π → Int) (X : List π) (y : List Int) (lr : ℝ) (m : ℕ) : List Bool :=
  incorrectVec
    (X.map (predictf (fitf X y (adaLoop fitf predictf X y lr m).sample_weight))) y

/-- The weighted error rate of round `m` (0-indexed) of the loop. -/
noncomputable def roundError (fitf : List π → List Int → List ℝ → L)
    (predictf : L → π → Int) (X : List π) (y : List Int) (lr : ℝ) (m : ℕ) : ℝ :=
  estimator_error (roundIncorrect fitf predictf X y lr m)
    (adaLoop fitf predictf X y lr m).sample_weight

/-- The confidence weight of round `m` (0-indexed) of the loop. -/
noncomputable def roundAlpha (fitf : List π → List Int → List ℝ → L)
    (predictf : L → π → Int) (X : List π) (y : List Int) (lr : ℝ) (m : ℕ) : ℝ :=
  estimator_weight lr (roundError fitf predictf X y lr m)

/-- numpy's `np.sign` on a real scalar. -/
noncomputable def rsign (x : ℝ) : ℝ :=
  if 0 < x then 1 else if x < 0 then -1 else 0

/-- The confidence-weighted vote total for training point `i`:
`(y_predict_list[:, point] * estimator_weight_list).sum()`.  This is the
arithmetic of the column product for a completed run (`M ≥ 1`, where
`np.asarray(y_predict_list)` is a 2-D `(M, N)` array); the column access
itself can raise, which `column` and `predsOpt` model. -/
noncomputable def votedSum (y_predict_list : List (List Int))
    (alphas : List ℝ) (i : ℕ) : ℝ :=
  (List.zipWith (fun (yp : List Int) (a : ℝ) => ((yp.getD i 0 : Int) : ℝ) * a)
    y_predict_list alphas).sum

/-- The final ensemble predictions
`preds = np.array([np.sign((y_predict_list[:,point] * estimator_weight_list).sum()) for point in range(N)])`,
as the value the comprehension has when every column access succeeds
(the case `M ≥ 1`); `predsOpt` is the same computation with the numpy
failure mode made explicit, and the two agree for `M ≥ 1`
(`predsOpt_run_succ`). -/
noncomputable def predsOf (st : AdaState L) (N : ℕ) : List ℝ :=
  (List.range N).map (fun i => rsign (votedSum st.y_predict_list st.estimator_weight_list i))

/-- The printed diagnostic `Accuracy = (preds == y).sum() / N`. -/
noncomputable def accuracyOf (preds : List ℝ) (y : List Int) : ℝ :=
  (List.zipWith (fun p (yi : Int) => if p = (yi : ℝ) then (1 : ℝ) else 0) preds y).sum
    / (y.length : ℝ)

/-- The value of the Python `return` statement:
the triple `(estimator_list, estimator_weight_list, sample_weight_list)`. -/
structure AdaReturn (L : Type) where
  estimator_list : List L
  estimator_weight_list : List ℝ
  sample_weight_list : List (List ℝ)

/-- The trainer `Adaboost_scratch(X, y, M, learning_rate)`.  Its return value is
exactly the triple `(estimator_list, estimator_weight_list, sample_weight_list)`;
the training accuracy is printed (see `Adaboost_printed_accuracy`), not returned. -/
noncomputable def Adaboost_scratch (fitf : List π → List Int → List ℝ → L)
    (predictf : L → π → Int) (X : List π) (y : List Int) (M : ℕ) (lr : ℝ) :
    AdaReturn L :=
  let st := adaLoop fitf predictf X y lr M
  { estimator_list := st.estimator_list
    estimator_weight_list := st.estimator_weight_list
    sample_weight_list := st.sample_weight_list }

/-- The diagnostic that `Adaboost_scratch` prints (`print('Accuracy = ', ...)`)
rather than returning it — the value printed when the prediction step
succeeds (`M ≥ 1`); `printedAccuracyOpt` makes the failing case explicit. -/
noncomputable def Adaboost_printed_accuracy (fitf : List π → List Int → List ℝ → L)
    (predictf : L → π → Int) (X : List π) (y : List Int) (M : ℕ) (lr : ℝ) : ℝ :=
  let st := adaLoop fitf predictf X y lr M
  accuracyOf (predsOf st y.length) y

/-- numpy's `np.asarray(y_predict_list)[:, point]`: with `M ≥ 1` recorded
rounds the array is 2-D of shape `(M, N)` and the access yields column
`point`; with no recorded rounds `np.asarray([])` is a 1-D empty array and the
two-subscript access raises `IndexError` (`none`), as it also does when
`point` is outside the row length. -/
def column (ypl : List (List Int)) (point : ℕ) : Option (List Int) :=
  match ypl with
  | [] => none
  | r :: rs =>
    if point < r.length then some ((r :: rs).map (fun row => row.getD point 0))
    else none

/-- One entry of the `preds` comprehension with the faulting column access made
explicit: `np.sign((y_predict_list[:, point] * estimator_weight_list).sum())`
when the column exists, `none` (IndexError) otherwise. -/
noncomputable def colVote (ypl : List (List Int)) (alphas : List ℝ) (point : ℕ) :
    Option ℝ :=
  (column ypl point).map
    (fun col => rsign ((List.zipWith (fun (p : Int) (a : ℝ) => (p : ℝ) * a) col alphas).sum))

/-- Sequencing of a comprehension that can raise: all results, or `none` as
soon as any entry fails. -/
def optList {A : Type} : List (Option A) → Option (List A)
  | [] => some []
  | o :: os => o.bind (fun x => (optList os).map (fun xs => x :: xs))

/-- The `preds` computation with the numpy failure mode made explicit: the
prediction vector when every column access succeeds, `none` (IndexError)
otherwise — in particular `none` whenever `N ≥ 1` and no rounds were run. -/
noncomputable def predsOpt (st : AdaState L) (N : ℕ) : Option (List ℝ) :=
  optList ((List.range N).map (colVote st.y_predict_list st.estimator_weight_list))

/-- The printed diagnostic with the failure mode made explicit: `none` when the
prediction step raises before the `print` executes (so nothing is printed and
the `return` statement is never reached). -/
noncomputable def printedAccuracyOpt (fitf : List π → List Int → List ℝ → L)
    (predictf : L → π → Int) (X : List π) (y : List Int) (M : ℕ) (lr : ℝ) :
    Option ℝ :=
  (predsOpt (adaLoop fitf predictf X y lr M) y.length).map
    (fun preds => accuracyOf preds y)

/-- A degenerate weak learner used only to instantiate witnesses: `fit` ignores
its inputs and yields the constant classifier `+1`. -/
def constFit : List ℕ → List Int → List ℝ → Int := fun _ _ _ => 1

/-- Prediction for the constant classifier: output its stored label. -/
def constPredict : Int → ℕ → Int := fun l _ => l

/-! The weak learner of the notebook is an opaque sklearn
`DecisionTreeClassifier(max_depth = 1, max_leaf_nodes = 2)`; its fitting code is
not part of this repository.  The definitions below model it from the spec as a
depth-1 decision stump: candidate thresholds are the midpoints of consecutive
distinct values of each feature, the chosen split minimizes the weighted Gini
impurity, and each leaf predicts the weighted-majority label of its side.
A threshold is stored as twice its value (`thr2 = a + b` for consecutive
distinct feature values `a < b`), so the left side of a split is
`2 * coordinate ≤ thr2`.  The same combinatorial definitions are instantiated
at the real numbers (the learner the embedded trainer consumes) and at the
integers (an exact-arithmetic shadow used to evaluate the concrete run). -/

/-- The selected coordinate of a 2-D point: feature `false` is the first
column, feature `true` the second. -/
def coordOf {A : Type} (f : Bool) (p : A × A) : A := if f then p.2 else p.1

/-- The smallest element of `l` strictly above `v`, if any. -/
def minAbove {A : Type} [LinearOrder A] (v : A) : List A → Option A
  | [] => none
  | c :: cs =>
    match minAbove v cs with
    | none => if v < c then some c else none
    | some m => if v < c then (if c < m then some c else some m) else some m

/-- Modelled from the spec: the candidate split thresholds of one feature,
doubled — for each value, the sum of it and its successor value (twice the
midpoint of two consecutive distinct values). -/
def candThresholds {A : Type} [LinearOrder A] [Add A] (vals : List A) : List A :=
  vals.filterMap (fun a => (minAbove a vals).map (fun b => a + b))

/-- Modelled from the spec: all candidate splits, first feature then second. -/
def candList {A : Type} [LinearOrder A] [Add A] (X : List (A × A)) : List (Bool × A) :=
  ((candThresholds (X.map (coordOf false))).map (fun t => (false, t)))
    ++ ((candThresholds (X.map (coordOf true))).map (fun t => (true, t)))

/-- A fitted depth-1 decision stump: split feature, doubled threshold, and the
labels predicted on the left (`2x ≤ thr2`) and right sides. -/
structure Stump (A : Type) where
  feat : Bool
  thr2 : A
  leftLabel : Int
  rightLabel : Int
deriving DecidableEq

section GenericStump

variable {A : Type} [LinearOrderedCommRing A]

/-- Whether a point falls on the left side of a split. -/
def sideOf (f : Bool) (t2 : A) (p : A × A) : Bool := decide (2 * coordOf f p ≤ t2)

/-- Total sample weight of the points on one side of a split carrying one
label. -/
def wcount (f : Bool) (t2 : A) (onLeft : Bool) (lab : Int)
    (X : List (A × A)) (y : List Int) (w : List A) : A :=
  (List.zipWith (fun p (qw : Int × A) =>
    if sideOf f t2 p = onLeft ∧ qw.1 = lab then qw.2 else 0) X (y.zip w)).sum

/-- A stump's prediction at a point. -/
def stumpPredict (s : Stump A) (p : A × A) : Int :=
  if sideOf s.feat s.thr2 p then s.leftLabel else s.rightLabel

/-- Modelled from the spec: each leaf predicts the weighted-majority label of
its side (ties broken towards `+1`). -/
def stumpLabelsAt (f : Bool) (t2 : A) (X : List (A × A)) (y : List Int) (w : List A) :
    Int × Int :=
  ((if wcount f t2 true 1 X y w < wcount f t2 true (-1) X y w then -1 else 1),
   (if wcount f t2 false 1 X y w < wcount f t2 false (-1) X y w then -1 else 1))

end GenericStump

/-- The weighted Gini impurity of a candidate split over integer weights,
as an exact fraction (numerator, positive denominator): for each side with
positive-label mass `p` and negative-label mass `n` the side contributes
`p * n / (p + n)` (zero for an empty side), and the two contributions are added
as fractions.  The overall factor `2 / total` common to all candidates is
dropped, as it does not affect comparisons. -/
def gvZ (X : List (ℤ × ℤ)) (y : List Int) (w : List ℤ) (c : Bool × ℤ) : ℤ × ℤ :=
  let lp := wcount c.1 c.2 true 1 X y w
  let ln := wcount c.1 c.2 true (-1) X y w
  let rp := wcount c.1 c.2 false 1 X y w
  let rn := wcount c.1 c.2 false (-1) X y w
  let a : ℤ × ℤ := if lp + ln = 0 then (0, 1) else (lp * ln, lp + ln)
  let b : ℤ × ℤ := if rp + rn = 0 then (0, 1) else (rp * rn, rp + rn)
  (a.1 * b.2 + b.1 * a.2, a.2 * b.2)

/-- The first candidate split of minimal weighted Gini impurity (integer
weights, exact fraction comparison by cross-multiplication). -/
def bestCandZ (X : List (ℤ × ℤ)) (y : List Int) (w : List ℤ) : Option (Bool × ℤ) :=
  match candList X with
  | [] => none
  | c :: cs => some (cs.foldl (fun b c2 =>
      if (gvZ X y w c2).1 * (gvZ X y w b).2 < (gvZ X y w b).1 * (gvZ X y w c2).2
      then c2 else b) c)

/-- The fitted stump over integer weights (exact shadow of `stumpFitR`). -/
def stumpFitZ (X : List (ℤ × ℤ)) (y : List Int) (w : List ℤ) : Stump ℤ :=
  match bestCandZ X y w with
  | none => ⟨false, 0, 1, 1⟩
  | some (f, t2) =>
    ⟨f, t2, (stumpLabelsAt f t2 X y w).1, (stumpLabelsAt f t2 X y w).2⟩

/-- The weighted Gini impurity of a candidate split over real weights (same
quantity as `gvZ`, with genuine division). -/
noncomputable def gvR (X : List (ℝ × ℝ)) (y : List Int) (w : List ℝ) (c : Bool × ℝ) : ℝ :=
  let lp := wcount c.1 c.2 true 1 X y w
  let ln := wcount c.1 c.2 true (-1) X y w
  let rp := wcount c.1 c.2 false 1 X y w
  let rn := wcount c.1 c.2 false (-1) X y w
  (if lp + ln = 0 then 0 else lp * ln / (lp + ln))
    + (if rp + rn = 0 then 0 else rp * rn / (rp + rn))

/-- The first candidate split of minimal weighted Gini impurity, real
weights. -/
noncomputable def bestCandR (X : List (ℝ × ℝ)) (y : List Int) (w : List ℝ) :
    Option (Bool × ℝ) :=
  match candList X with
  | [] => none
  | c :: cs => some (cs.foldl (fun b c2 =>
      if gvR X y w c2 < gvR X y w b then c2 else b) c)

/-- Modelled from the spec: the depth-1 decision stump weak learner the
embedded trainer consumes in place of the opaque sklearn
`DecisionTreeClassifier(max_depth = 1, max_leaf_nodes = 2)`. -/
noncomputable def stumpFitR (X : List (ℝ × ℝ)) (y : List Int) (w : List ℝ) : Stump ℝ :=
  match bestCandR X y w with
  | none => ⟨false, 0, 1, 1⟩
  | some (f, t2) =>
    ⟨f, t2, (stumpLabelsAt f t2 X y w).1, (stumpLabelsAt f t2 X y w).2⟩

/-- Weighted mass of the misclassified entries, integer weights. -/
def zdot (w : List ℤ) (inc : List Bool) : ℤ :=
  (List.zipWith (fun wi b => if b then wi else 0) w inc).sum

/-- One boosting round over integer weights.  With error `e = i/t` the real
trainer multiplies misclassified weights by `(1-e)/e = (t-i)/i`; here the
misclassified weights are multiplied by `t - i` and the rest by `i`, which is
the same vector up to the positive scalar `1/i`. -/
def zstep (X : List (ℤ × ℤ)) (y : List Int) (w : List ℤ) : List ℤ :=
  let s := stumpFitZ X y w
  let inc := incorrectVec (X.map (stumpPredict s)) y
  let i := zdot w inc
  let t := w.sum
  List.zipWith (fun wi b => if b then wi * (t - i) else wi * i) w inc

/-- The integer weight vector after `m` boosting rounds, starting from all
ones (the uniform `1/N` vector up to scale). -/
def zLoop (X : List (ℤ × ℤ)) (y : List Int) : ℕ → List ℤ
  | 0 => List.replicate y.length 1
  | m + 1 => zstep X y (zLoop X y m)

/-- The stump fitted in integer round `m`. -/
def zStump (X : List (ℤ × ℤ)) (y : List Int) (m : ℕ) : Stump ℤ :=
  stumpFitZ X y (zLoop X y m)

/-- The integer round-`m` training-set predictions. -/
def zPreds (X : List (ℤ × ℤ)) (y : List Int) (m : ℕ) : List Int :=
  X.map (stumpPredict (zStump X y m))

/-- The integer round-`m` misclassification mask. -/
def zInc (X : List (ℤ × ℤ)) (y : List Int) (m : ℕ) : List Bool :=
  incorrectVec (zPreds X y m) y

/-- The integer round-`m` misclassified weight mass. -/
def zI (X : List (ℤ × ℤ)) (y : List Int) (m : ℕ) : ℤ :=
  zdot (zLoop X y m) (zInc X y m)

/-- The integer round-`m` total weight mass. -/
def zS (X : List (ℤ × ℤ)) (y : List Int) (m : ℕ) : ℤ :=
  (zLoop X y m).sum

/-- The scaled-integer form of the source's 23-point dataset: each coordinate
is 200 times the coordinate in the notebook (so that the doubled midpoint
thresholds stay integral). -/
def Xz : List (ℤ × ℤ) :=
  [(20, 40), (40, 130), (80, 140), (160, 120), (160, 60), (10, 20), (16, 80),
   (24, 132), (66, 154), (110, 130), (132, 136), (154, 110), (176, 88),
   (40, 20), (60, 60), (80, 80), (100, 60), (120, 30), (50, 30), (60, 100),
   (100, 110), (140, 40), (120, 80)]

/-- The labels of the source's 23-point dataset: 13 positive then 10
negative. -/
def yv : List Int :=
  [1, 1, 1, 1, 1, 1, 1, 1, 1, 1, 1, 1, 1, -1, -1, -1, -1, -1, -1, -1, -1, -1, -1]

/-- The coordinate map from the scaled-integer dataset back to the notebook's
real dataset. -/
noncomputable def ptR (p : ℤ × ℤ) : ℝ × ℝ := ((p.1 : ℝ) / 200, (p.2 : ℝ) / 200)

/-- A stump over scaled-integer coordinates, as a stump over the notebook's
real coordinates. -/
noncomputable def stumpToR (s : Stump ℤ) : Stump ℝ :=
  ⟨s.feat, (s.thr2 : ℝ) / 200, s.leftLabel, s.rightLabel⟩

/-- Exact integer weight vectors of the ten boosting rounds on the
scaled 23-point dataset (round-by-round values of `zLoop Xz yv`). -/
def zW0 : List ℤ :=
  [1, 1, 1, 1, 1, 1, 1, 1, 1, 1, 1, 1, 1, 1, 1, 1, 1, 1, 1, 1, 1, 1, 1]

def zW1 : List ℤ :=
  [17, 6, 6, 6, 17, 17, 17, 6, 6, 6, 6, 17, 17, 6, 6, 6, 6, 6, 6, 6, 6, 6, 6]

def zW2 : List ℤ :=
  [1020, 360, 360, 360, 1020, 1020, 1020, 360, 360, 360, 360, 1020, 1020, 864, 864, 864, 864, 864, 864, 864, 864, 864, 864]

def zW3 : List ℤ :=
  [5324400, 4341600, 4341600, 4341600, 12301200, 5324400, 5324400, 1879200, 4341600, 4341600, 4341600, 12301200, 12301200, 4510080, 4510080, 4510080, 4510080, 4510080, 4510080, 4510080, 4510080, 4510080, 4510080]

def zW4 : List ℤ :=
  [459740642400000, 374879793600000, 374879793600000, 171755432640000, 486640392480000, 459740642400000, 459740642400000, 162261403200000, 374879793600000, 374879793600000, 374879793600000, 486640392480000, 486640392480000, 178420568832000, 178420568832000, 178420568832000, 178420568832000, 178420568832000, 178420568832000, 178420568832000, 178420568832000, 178420568832000, 178420568832000]

def zW5 : List ℤ :=
  [820271869321970976768000000000, 668862660177347530752000000000, 668862660177347530752000000000, 306447019916150594764800000000, 868266556429093351833600000000, 820271869321970976768000000000, 820271869321970976768000000000, 289507718584225050624000000000, 668862660177347530752000000000, 668862660177347530752000000000, 668862660177347530752000000000, 868266556429093351833600000000, 868266556429093351833600000000, 900588331664030628495360000000, 900588331664030628495360000000, 900588331664030628495360000000, 900588331664030628495360000000, 900588331664030628495360000000, 900588331664030628495360000000, 900588331664030628495360000000, 900588331664030628495360000000, 900588331664030628495360000000, 900588331664030628495360000000]

def zW6 : List ℤ :=
  [10619363773333780874985394343069622052533043200000000000000000, 3388200909778582515139202417908207467469209600000000000000000, 3388200909778582515139202417908207467469209600000000000000000, 1552342705755965947836760282276143083594711040000000000000000, 11240710256907764922558454486944382108450160640000000000000000, 10619363773333780874985394343069622052533043200000000000000000, 10619363773333780874985394343069622052533043200000000000000000, 1466534722142968551328908509243850993382195200000000000000000, 3388200909778582515139202417908207467469209600000000000000000, 3388200909778582515139202417908207467469209600000000000000000, 3388200909778582515139202417908207467469209600000000000000000, 11240710256907764922558454486944382108450160640000000000000000, 11240710256907764922558454486944382108450160640000000000000000, 4562034011393279031776986560898098106862665728000000000000000, 4562034011393279031776986560898098106862665728000000000000000, 4562034011393279031776986560898098106862665728000000000000000, 4562034011393279031776986560898098106862665728000000000000000, 4562034011393279031776986560898098106862665728000000000000000, 4562034011393279031776986560898098106862665728000000000000000, 4562034011393279031776986560898098106862665728000000000000000, 4562034011393279031776986560898098106862665728000000000000000, 4562034011393279031776986560898098106862665728000000000000000, 4562034011393279031776986560898098106862665728000000000000000]

def zW7 : List ℤ :=
  [484458987133063763097690240405796706057324089970170455069606217141463878629694511561834496000000000000000000000000000000000, 154570877878435442866985897585388343125231706187307781118437233565962737871763796171685888000000000000000000000000000000000, 154570877878435442866985897585388343125231706187307781118437233565962737871763796171685888000000000000000000000000000000000, 70818402209969859564949261145125390977826609101201801405482875115962665268826864962712371200000000000000000000000000000000, 512805025042305069130267781547221467716005846259814121988474811485951161532760806202225459200000000000000000000000000000000, 484458987133063763097690240405796706057324089970170455069606217141463878629694511561834496000000000000000000000000000000000, 484458987133063763097690240405796706057324089970170455069606217141463878629694511561834496000000000000000000000000000000000, 66903812813054146912575985522033760457189842976595905260219101095715214899718658044461056000000000000000000000000000000000, 154570877878435442866985897585388343125231706187307781118437233565962737871763796171685888000000000000000000000000000000000, 154570877878435442866985897585388343125231706187307781118437233565962737871763796171685888000000000000000000000000000000000, 154570877878435442866985897585388343125231706187307781118437233565962737871763796171685888000000000000000000000000000000000, 512805025042305069130267781547221467716005846259814121988474811485951161532760806202225459200000000000000000000000000000000, 512805025042305069130267781547221467716005846259814121988474811485951161532760806202225459200000000000000000000000000000000, 390236864094130771749632880045315538838116479170429034343213122992373669001473045715778273280000000000000000000000000000000, 390236864094130771749632880045315538838116479170429034343213122992373669001473045715778273280000000000000000000000000000000, 390236864094130771749632880045315538838116479170429034343213122992373669001473045715778273280000000000000000000000000000000, 390236864094130771749632880045315538838116479170429034343213122992373669001473045715778273280000000000000000000000000000000, 390236864094130771749632880045315538838116479170429034343213122992373669001473045715778273280000000000000000000000000000000, 390236864094130771749632880045315538838116479170429034343213122992373669001473045715778273280000000000000000000000000000000, 390236864094130771749632880045315538838116479170429034343213122992373669001473045715778273280000000000000000000000000000000, 390236864094130771749632880045315538838116479170429034343213122992373669001473045715778273280000000000000000000000000000000, 390236864094130771749632880045315538838116479170429034343213122992373669001473045715778273280000000000000000000000000000000, 390236864094130771749632880045315538838116479170429034343213122992373669001473045715778273280000000000000000000000000000000]

def zW8 : List ℤ :=
  [2670145179701501979101661856802876191724747158516067534090411572033431883052128372858818678622577681658200974543550752846185243536763537671870909755481391304086805603478560470309273600000000000000000000000000000000000000000000000000000000000000000, 851933177938904636344152054658223155953905310618276606027405278230337971903190927776534593640770668871860151807432942227886255951589900563538565212367991776691421302994355146771660800000000000000000000000000000000000000000000000000000000000000000, 851933177938904636344152054658223155953905310618276606027405278230337971903190927776534593640770668871860151807432942227886255951589900563538565212367991776691421302994355146771660800000000000000000000000000000000000000000000000000000000000000000, 162396168337963040509355614360148801843449519674975119895456110756390119217215699672305179561395937223924553924659410818609601157637979424787366156064813547476119579795761136454860800000000000000000000000000000000000000000000000000000000000000000, 1175931234997556289042359458507245328807212252845374194303955459884545533939701417038949072333528904409354003043282541631441512572212680083926143433188537988698842777946989204917452800000000000000000000000000000000000000000000000000000000000000000, 2670145179701501979101661856802876191724747158516067534090411572033431883052128372858818678622577681658200974543550752846185243536763537671870909755481391304086805603478560470309273600000000000000000000000000000000000000000000000000000000000000000, 2670145179701501979101661856802876191724747158516067534090411572033431883052128372858818678622577681658200974543550752846185243536763537671870909755481391304086805603478560470309273600000000000000000000000000000000000000000000000000000000000000000, 368747196421316932148961337090872709293481403103433157832757508487758226644664729933126913665408199959461856752470974994159722725315031587203259569532414351105242056519944765020569600000000000000000000000000000000000000000000000000000000000000000, 851933177938904636344152054658223155953905310618276606027405278230337971903190927776534593640770668871860151807432942227886255951589900563538565212367991776691421302994355146771660800000000000000000000000000000000000000000000000000000000000000000, 851933177938904636344152054658223155953905310618276606027405278230337971903190927776534593640770668871860151807432942227886255951589900563538565212367991776691421302994355146771660800000000000000000000000000000000000000000000000000000000000000000, 851933177938904636344152054658223155953905310618276606027405278230337971903190927776534593640770668871860151807432942227886255951589900563538565212367991776691421302994355146771660800000000000000000000000000000000000000000000000000000000000000000, 1175931234997556289042359458507245328807212252845374194303955459884545533939701417038949072333528904409354003043282541631441512572212680083926143433188537988698842777946989204917452800000000000000000000000000000000000000000000000000000000000000000, 1175931234997556289042359458507245328807212252845374194303955459884545533939701417038949072333528904409354003043282541631441512572212680083926143433188537988698842777946989204917452800000000000000000000000000000000000000000000000000000000000000000, 894865875188971414353827319090873227597216315353192108743369612532971701428068453660310352117501193884137897636578090895921259421927912774394301844218611963325011746829067315859947520000000000000000000000000000000000000000000000000000000000000000, 894865875188971414353827319090873227597216315353192108743369612532971701428068453660310352117501193884137897636578090895921259421927912774394301844218611963325011746829067315859947520000000000000000000000000000000000000000000000000000000000000000, 894865875188971414353827319090873227597216315353192108743369612532971701428068453660310352117501193884137897636578090895921259421927912774394301844218611963325011746829067315859947520000000000000000000000000000000000000000000000000000000000000000, 894865875188971414353827319090873227597216315353192108743369612532971701428068453660310352117501193884137897636578090895921259421927912774394301844218611963325011746829067315859947520000000000000000000000000000000000000000000000000000000000000000, 894865875188971414353827319090873227597216315353192108743369612532971701428068453660310352117501193884137897636578090895921259421927912774394301844218611963325011746829067315859947520000000000000000000000000000000000000000000000000000000000000000, 894865875188971414353827319090873227597216315353192108743369612532971701428068453660310352117501193884137897636578090895921259421927912774394301844218611963325011746829067315859947520000000000000000000000000000000000000000000000000000000000000000, 894865875188971414353827319090873227597216315353192108743369612532971701428068453660310352117501193884137897636578090895921259421927912774394301844218611963325011746829067315859947520000000000000000000000000000000000000000000000000000000000000000, 894865875188971414353827319090873227597216315353192108743369612532971701428068453660310352117501193884137897636578090895921259421927912774394301844218611963325011746829067315859947520000000000000000000000000000000000000000000000000000000000000000, 894865875188971414353827319090873227597216315353192108743369612532971701428068453660310352117501193884137897636578090895921259421927912774394301844218611963325011746829067315859947520000000000000000000000000000000000000000000000000000000000000000, 894865875188971414353827319090873227597216315353192108743369612532971701428068453660310352117501193884137897636578090895921259421927912774394301844218611963325011746829067315859947520000000000000000000000000000000000000000000000000000000000000000]

def zW9 : List ℤ :=
  [21227269044963823868909324890928021684055758420417417810287768018936777658572664969598225483264739911517974894595100724641018948486724693373118050125001090585935386842933878627724444541528254115233649004565317905761970026901709603099270829643360214961811332604081718246498851067757388040432524419015953933079468882747626132994933599184458847508249536100264595947520000000000000000000000000000000000000000000000000000000000000000000000000000000000000000000000000000000000000000000000000000000000, 14762163065195514677010547955334225466681405153379525798992434077649881632560837019771416157203922270322589826032243247757722925636008222834217437004123305479910849970527638398686229364063634193621734861803693450189121592459271995815120429451907749416523320652971487803433199333313052567715915965435206095019345371974856503783770085134150594714284484213051207188480000000000000000000000000000000000000000000000000000000000000000000000000000000000000000000000000000000000000000000000000000000000, 14762163065195514677010547955334225466681405153379525798992434077649881632560837019771416157203922270322589826032243247757722925636008222834217437004123305479910849970527638398686229364063634193621734861803693450189121592459271995815120429451907749416523320652971487803433199333313052567715915965435206095019345371974856503783770085134150594714284484213051207188480000000000000000000000000000000000000000000000000000000000000000000000000000000000000000000000000000000000000000000000000000000000, 2813975063123873429123212736295265709289879730112498776176410555807032507659291105228769025399409803916261239665479347024751418284765040029128036154205601850809167540506742947587182927280700304500291688961150954368612831894266897582598019069146324820490331232734134174087016185863202508036374413417039257918182961236081953866103887366674439547635888583231385108480000000000000000000000000000000000000000000000000000000000000000000000000000000000000000000000000000000000000000000000000000000000, 20376350040138445161761096698849762015180258352283537346202393800312601637188194269831940872964001275763837914464023481145277151197295767189858612202400764517859888129032156938015876749740059721330802474284818588643040598797963246247077321028660156640626623977800877169167344116616384815104548635925339526800775662214900832793848616736279909041440158562058428743680000000000000000000000000000000000000000000000000000000000000000000000000000000000000000000000000000000000000000000000000000000000, 21227269044963823868909324890928021684055758420417417810287768018936777658572664969598225483264739911517974894595100724641018948486724693373118050125001090585935386842933878627724444541528254115233649004565317905761970026901709603099270829643360214961811332604081718246498851067757388040432524419015953933079468882747626132994933599184458847508249536100264595947520000000000000000000000000000000000000000000000000000000000000000000000000000000000000000000000000000000000000000000000000000000000, 21227269044963823868909324890928021684055758420417417810287768018936777658572664969598225483264739911517974894595100724641018948486724693373118050125001090585935386842933878627724444541528254115233649004565317905761970026901709603099270829643360214961811332604081718246498851067757388040432524419015953933079468882747626132994933599184458847508249536100264595947520000000000000000000000000000000000000000000000000000000000000000000000000000000000000000000000000000000000000000000000000000000000, 2931487024569375257770093352184296159878714726975553210061210587279129926994819250266770369625216435922071247874075610024307456810949374873943954684081329632297100965634450146042672254122214425830856993226569746433595795435999240897266559092569128718186913943669735949664580731748630542909949932121338104153579320952870591528305982519861534467244163682051786014720000000000000000000000000000000000000000000000000000000000000000000000000000000000000000000000000000000000000000000000000000000000, 14762163065195514677010547955334225466681405153379525798992434077649881632560837019771416157203922270322589826032243247757722925636008222834217437004123305479910849970527638398686229364063634193621734861803693450189121592459271995815120429451907749416523320652971487803433199333313052567715915965435206095019345371974856503783770085134150594714284484213051207188480000000000000000000000000000000000000000000000000000000000000000000000000000000000000000000000000000000000000000000000000000000000, 14762163065195514677010547955334225466681405153379525798992434077649881632560837019771416157203922270322589826032243247757722925636008222834217437004123305479910849970527638398686229364063634193621734861803693450189121592459271995815120429451907749416523320652971487803433199333313052567715915965435206095019345371974856503783770085134150594714284484213051207188480000000000000000000000000000000000000000000000000000000000000000000000000000000000000000000000000000000000000000000000000000000000, 14762163065195514677010547955334225466681405153379525798992434077649881632560837019771416157203922270322589826032243247757722925636008222834217437004123305479910849970527638398686229364063634193621734861803693450189121592459271995815120429451907749416523320652971487803433199333313052567715915965435206095019345371974856503783770085134150594714284484213051207188480000000000000000000000000000000000000000000000000000000000000000000000000000000000000000000000000000000000000000000000000000000000, 20376350040138445161761096698849762015180258352283537346202393800312601637188194269831940872964001275763837914464023481145277151197295767189858612202400764517859888129032156938015876749740059721330802474284818588643040598797963246247077321028660156640626623977800877169167344116616384815104548635925339526800775662214900832793848616736279909041440158562058428743680000000000000000000000000000000000000000000000000000000000000000000000000000000000000000000000000000000000000000000000000000000000, 20376350040138445161761096698849762015180258352283537346202393800312601637188194269831940872964001275763837914464023481145277151197295767189858612202400764517859888129032156938015876749740059721330802474284818588643040598797963246247077321028660156640626623977800877169167344116616384815104548635925339526800775662214900832793848616736279909041440158562058428743680000000000000000000000000000000000000000000000000000000000000000000000000000000000000000000000000000000000000000000000000000000000, 7114054635005593543496117458454731787619169056563293316882124770090478267931524485452022561089158881234472818155938824530183319778557000077649295272293982141383982028580531972584995411811207366506956941391155050752383671444338856520435308139201576822136589467507931400959391126725682512772207695919988841002525083855931798065339338317302906325138601335181713342464000000000000000000000000000000000000000000000000000000000000000000000000000000000000000000000000000000000000000000000000000000000, 7114054635005593543496117458454731787619169056563293316882124770090478267931524485452022561089158881234472818155938824530183319778557000077649295272293982141383982028580531972584995411811207366506956941391155050752383671444338856520435308139201576822136589467507931400959391126725682512772207695919988841002525083855931798065339338317302906325138601335181713342464000000000000000000000000000000000000000000000000000000000000000000000000000000000000000000000000000000000000000000000000000000000, 7114054635005593543496117458454731787619169056563293316882124770090478267931524485452022561089158881234472818155938824530183319778557000077649295272293982141383982028580531972584995411811207366506956941391155050752383671444338856520435308139201576822136589467507931400959391126725682512772207695919988841002525083855931798065339338317302906325138601335181713342464000000000000000000000000000000000000000000000000000000000000000000000000000000000000000000000000000000000000000000000000000000000, 7114054635005593543496117458454731787619169056563293316882124770090478267931524485452022561089158881234472818155938824530183319778557000077649295272293982141383982028580531972584995411811207366506956941391155050752383671444338856520435308139201576822136589467507931400959391126725682512772207695919988841002525083855931798065339338317302906325138601335181713342464000000000000000000000000000000000000000000000000000000000000000000000000000000000000000000000000000000000000000000000000000000000, 7114054635005593543496117458454731787619169056563293316882124770090478267931524485452022561089158881234472818155938824530183319778557000077649295272293982141383982028580531972584995411811207366506956941391155050752383671444338856520435308139201576822136589467507931400959391126725682512772207695919988841002525083855931798065339338317302906325138601335181713342464000000000000000000000000000000000000000000000000000000000000000000000000000000000000000000000000000000000000000000000000000000000, 7114054635005593543496117458454731787619169056563293316882124770090478267931524485452022561089158881234472818155938824530183319778557000077649295272293982141383982028580531972584995411811207366506956941391155050752383671444338856520435308139201576822136589467507931400959391126725682512772207695919988841002525083855931798065339338317302906325138601335181713342464000000000000000000000000000000000000000000000000000000000000000000000000000000000000000000000000000000000000000000000000000000000, 7114054635005593543496117458454731787619169056563293316882124770090478267931524485452022561089158881234472818155938824530183319778557000077649295272293982141383982028580531972584995411811207366506956941391155050752383671444338856520435308139201576822136589467507931400959391126725682512772207695919988841002525083855931798065339338317302906325138601335181713342464000000000000000000000000000000000000000000000000000000000000000000000000000000000000000000000000000000000000000000000000000000000, 7114054635005593543496117458454731787619169056563293316882124770090478267931524485452022561089158881234472818155938824530183319778557000077649295272293982141383982028580531972584995411811207366506956941391155050752383671444338856520435308139201576822136589467507931400959391126725682512772207695919988841002525083855931798065339338317302906325138601335181713342464000000000000000000000000000000000000000000000000000000000000000000000000000000000000000000000000000000000000000000000000000000000, 7114054635005593543496117458454731787619169056563293316882124770090478267931524485452022561089158881234472818155938824530183319778557000077649295272293982141383982028580531972584995411811207366506956941391155050752383671444338856520435308139201576822136589467507931400959391126725682512772207695919988841002525083855931798065339338317302906325138601335181713342464000000000000000000000000000000000000000000000000000000000000000000000000000000000000000000000000000000000000000000000000000000000, 7114054635005593543496117458454731787619169056563293316882124770090478267931524485452022561089158881234472818155938824530183319778557000077649295272293982141383982028580531972584995411811207366506956941391155050752383671444338856520435308139201576822136589467507931400959391126725682512772207695919988841002525083855931798065339338317302906325138601335181713342464000000000000000000000000000000000000000000000000000000000000000000000000000000000000000000000000000000000000000000000000000000000]

/-- The stumps fitted in the ten integer rounds. -/
def zST0 : Stump ℤ := ⟨true, 230, -1, 1⟩
def zST1 : Stump ℤ := ⟨false, 64, 1, 1⟩
def zST2 : Stump ℤ := ⟨false, 64, 1, -1⟩
def zST3 : Stump ℤ := ⟨false, 294, -1, 1⟩
def zST4 : Stump ℤ := ⟨true, 230, 1, 1⟩
def zST5 : Stump ℤ := ⟨true, 230, -1, 1⟩
def zST6 : Stump ℤ := ⟨false, 294, 1, 1⟩
def zST7 : Stump ℤ := ⟨false, 294, -1, 1⟩
def zST8 : Stump ℤ := ⟨false, 64, 1, -1⟩
def zST9 : Stump ℤ := ⟨true, 230, 1, 1⟩

/-- The training-set predictions of the ten fitted stumps. -/
def zP0 : List Int := [-1, 1, 1, 1, -1, -1, -1, 1, 1, 1, 1, -1, -1, -1, -1, -1, -1, -1, -1, -1, -1, -1, -1]
def zP1 : List Int := [1, 1, 1, 1, 1, 1, 1, 1, 1, 1, 1, 1, 1, 1, 1, 1, 1, 1, 1, 1, 1, 1, 1]
def zP2 : List Int := [1, -1, -1, -1, -1, 1, 1, 1, -1, -1, -1, -1, -1, -1, -1, -1, -1, -1, -1, -1, -1, -1, -1]
def zP3 : List Int := [-1, -1, -1, 1, 1, -1, -1, -1, -1, -1, -1, 1, 1, -1, -1, -1, -1, -1, -1, -1, -1, -1, -1]
def zP4 : List Int := [1, 1, 1, 1, 1, 1, 1, 1, 1, 1, 1, 1, 1, 1, 1, 1, 1, 1, 1, 1, 1, 1, 1]
def zP5 : List Int := [-1, 1, 1, 1, -1, -1, -1, 1, 1, 1, 1, -1, -1, -1, -1, -1, -1, -1, -1, -1, -1, -1, -1]
def zP6 : List Int := [1, 1, 1, 1, 1, 1, 1, 1, 1, 1, 1, 1, 1, 1, 1, 1, 1, 1, 1, 1, 1, 1, 1]
def zP7 : List Int := [-1, -1, -1, 1, 1, -1, -1, -1, -1, -1, -1, 1, 1, -1, -1, -1, -1, -1, -1, -1, -1, -1, -1]
def zP8 : List Int := [1, -1, -1, -1, -1, 1, 1, 1, -1, -1, -1, -1, -1, -1, -1, -1, -1, -1, -1, -1, -1, -1, -1]
def zP9 : List Int := [1, 1, 1, 1, 1, 1, 1, 1, 1, 1, 1, 1, 1, 1, 1, 1, 1, 1, 1, 1, 1, 1, 1]

/-- Per-round vote factors `(zS - zI, zI)`: the numerator and denominator
of the odds ratio whose logarithm is the round's confidence weight. -/
def voteFactors : List (ℤ × ℤ) :=
  [(17, 6), (144, 60), (12060, 5220), (86346000, 39560400), (5047558908480000, 1784205688320000), (12946151356027419584102400000000, 5065615277253192985804800000000), (85540104067516484467493227371103043897272565760000000000000000, 45620340113932790317769865608980981068626657280000000000000000), (5511602118278192784452081406239945182507008939584934510803038539497552839881839740727171481600000000000000000000000000000000, 2293135163604422650540576194666365594255320643823646176061223920349920540147621173588393984000000000000000000000000000000000), (17327841487415537012992220098408233560439886032183556847537688349917770890081734385112686470708153183775443756748904142491928047554884772346759007278162707896615776335246299334547865600000000000000000000000000000000000000000000000000000000000000000, 7949855763025155089357194263173000568034612831302480732944348881561716580552274589671825364765835994811287322091671746852365418632225522494258622517470386397029754428608504485065523200000000000000000000000000000000000000000000000000000000000000000), (204367134668977629163957310634484040300283670542088546450670276989083708484740873172643119249730461153296720044878143813196561802327816910763089162841109024194046343274677491784281965875526027208133177427756597434962848466725644665594511177437315315428607718186909095387916179137298414456137123337538288216809222776950815961679606943319505217235371557317508281139200000000000000000000000000000000000000000000000000000000000000000000000000000000000000000000000000000000000000000000000000000000000, 71140546350055935434961174584547317876191690565632933168821247700904782679315244854520225610891588812344728181559388245301833197785570000776492952722939821413839820285805319725849954118112073665069569413911550507523836714443388565204353081392015768221365894675079314009593911267256825127722076959199888410025250838559317980653393383173029063251386013351817133424640000000000000000000000000000000000000000000000000000000000000000000000000000000000000000000000000000000000000000000000000000000000)]

/-- The notebook's 23-point 2-D dataset (`X = np.vstack((x1, x2)).T`). -/
noncomputable def X23 : List (ℝ × ℝ) :=
  [(0.1, 0.2), (0.2, 0.65), (0.4, 0.7), (0.8, 0.6), (0.8, 0.3), (0.05, 0.1),
   (0.08, 0.4), (0.12, 0.66), (0.33, 0.77), (0.55, 0.65), (0.66, 0.68),
   (0.77, 0.55), (0.88, 0.44), (0.2, 0.1), (0.3, 0.3), (0.4, 0.4), (0.5, 0.3),
   (0.6, 0.15), (0.25, 0.15), (0.3, 0.5), (0.5, 0.55), (0.7, 0.2), (0.6, 0.4)]

/-- Product over the rounds of the vote factor favoured by each round's vote
on point `i`: the numerator of the odds a point is voted positive. -/
def uProd (i : ℕ) (ypl : List (List Int)) (ab : List (ℤ × ℤ)) : ℤ :=
  (List.zipWith (fun (pk : List Int) (q : ℤ × ℤ) =>
    if pk.getD i 0 = 1 then q.1 else q.2) ypl ab).prod

/-- Product over the rounds of the vote factor opposing each round's vote on
point `i`: the denominator of the odds a point is voted positive. -/
def vProd (i : ℕ) (ypl : List (List Int)) (ab : List (ℤ × ℤ)) : ℤ :=
  (List.zipWith (fun (pk : List Int) (q : ℤ × ℤ) =>
    if pk.getD i 0 = 1 then q.2 else q.1) ypl ab).prod

/-! Basic helper lemmas about the embedded operations. -/

theorem incorrectVec_length (yp y : List Int) :
    (incorrectVec yp y).length = min yp.length y.length := by
  simp [incorrectVec]

theorem updateWeights_length (alpha : ℝ) (inc : List Bool) (w : List ℝ) :
    (updateWeights alpha inc w).length = min w.length inc.length := by
  simp [updateWeights]

/-- On an all-positive weight vector the guard `(sample_weight>0)|(estimator_weight<0)`
is identically true, so the update multiplies exactly the misclassified entries
by `exp alpha` and leaves the rest alone. -/
theorem updateWeights_eq_of_pos (alpha : ℝ) :
    ∀ (w : List ℝ) (inc : List Bool), (∀ x ∈ w, 0 < x) →
      updateWeights alpha inc w
        = List.zipWith (fun wi b => if b then wi * Real.exp alpha else wi) w inc := by
  intro w
  induction w with
  | nil => intro inc _; simp [updateWeights]
  | cons a as ih =>
    intro inc hpos
    cases inc with
    | nil => simp [updateWeights]
    | cons b bs =>
      have ha : 0 < a := hpos a (by simp)
      have hrest : ∀ x ∈ as, 0 < x := fun x hx => hpos x (by simp [hx])
      have hih := ih bs hrest
      simp only [updateWeights, List.zipWith_cons_cons] at hih ⊢
      refine congrArg₂ _ ?_ hih
      cases b with
      | true =>
        simp [maskVal, if_pos (Or.inl ha)]
      | false =>
        simp [maskVal]

theorem updateWeights_pos (alpha : ℝ) :
    ∀ (w : List ℝ) (inc : List Bool), (∀ x ∈ w, 0 < x) →
      ∀ x ∈ updateWeights alpha inc w, 0 < x := by
  intro w
  induction w with
  | nil => intro inc _ x hx; simp [updateWeights] at hx
  | cons a as ih =>
    intro inc hpos x hx
    cases inc with
    | nil => simp [updateWeights] at hx
    | cons b bs =>
      simp only [updateWeights, List.zipWith_cons_cons, List.mem_cons] at hx
      rcases hx with h | h
      · subst h
        exact mul_pos (hpos a (by simp)) (Real.exp_pos _)
      · exact ih bs (fun z hz => hpos z (by simp [hz])) x h

/-- Splitting the sum of a conditionally rescaled vector:
the new total is the old total with the misclassified mass `wdot w inc`
replaced by `wdot w inc * c`. -/
theorem sum_cond_scale (c : ℝ) :
    ∀ (w : List ℝ) (inc : List Bool), w.length = inc.length →
      (List.zipWith (fun wi b => if b then wi * c else wi) w inc).sum
        = w.sum - wdot w inc + wdot w inc * c := by
  intro w
  induction w with
  | nil =>
    intro inc h
    cases inc with
    | nil => simp [wdot]
    | cons b bs => simp at h
  | cons a as ih =>
    intro inc h
    cases inc with
    | nil => simp at h
    | cons b bs =>
      have hih := ih bs (by simpa using h)
      simp only [List.zipWith_cons_cons, List.sum_cons, wdot] at hih ⊢
      cases b with
      | true => simp [maskVal] at hih ⊢; rw [hih]; ring
      | false => simp [maskVal] at hih ⊢; rw [hih]; ring

theorem wdot_nonneg (w : List ℝ) (inc : List Bool) (hw : ∀ x ∈ w, 0 ≤ x) :
    0 ≤ wdot w inc := by
  induction w generalizing inc with
  | nil => simp [wdot]
  | cons a as ih =>
    cases inc with
    | nil => simp [wdot]
    | cons b bs =>
      have hih := ih bs (fun x hx => hw x (by simp [hx]))
      simp only [wdot, List.zipWith_cons_cons, List.sum_cons] at hih ⊢
      have ha := hw a (by simp)
      have hm : 0 ≤ a * maskVal b := by
        by_cases hb : b = true <;> simp [maskVal, hb, ha]
      linarith

theorem wdot_le_sum (w : List ℝ) (inc : List Bool) (hw : ∀ x ∈ w, 0 ≤ x) :
    wdot w inc ≤ w.sum := by
  induction w generalizing inc with
  | nil => simp [wdot]
  | cons a as ih =>
    cases inc with
    | nil =>
      simp only [wdot, List.zipWith_nil_right, List.sum_nil, List.sum_cons]
      have := List.sum_nonneg (l := as) (fun x hx => hw x (by simp [hx]))
      have ha := hw a (by simp)
      linarith
    | cons b bs =>
      have hih := ih bs (fun x hx => hw x (by simp [hx]))
      simp only [wdot, List.zipWith_cons_cons, List.sum_cons] at hih ⊢
      have ha := hw a (by simp)
      have hm : a * maskVal b ≤ a := by
        by_cases hb : b = true <;> simp [maskVal, hb, ha]
      linarith

section Loop

variable {π L : Type}
variable (fitf : List π → List Int → List ℝ → L) (predictf : L → π → Int)
variable (X : List π) (y : List Int) (lr : ℝ)

theorem adaLoop_sample_weight_length (hX : X.length = y.length) :
    ∀ m, (adaLoop fitf predictf X y lr m).sample_weight.length = y.length := by
  intro m
  induction m with
  | zero => simp [adaLoop, adaInit]
  | succ m ih =>
    simp only [adaLoop, adaRound, updateWeights_length, incorrectVec_length,
      List.length_map, hX, ih]
    omega

theorem adaLoop_sample_weight_pos (hN : 0 < y.length) :
    ∀ m, ∀ x ∈ (adaLoop fitf predictf X y lr m).sample_weight, 0 < x := by
  intro m
  induction m with
  | zero =>
    intro x hx
    simp only [adaLoop, adaInit, List.mem_replicate] at hx
    rw [hx.2]
    positivity
  | succ m ih =>
    intro x hx
    exact updateWeights_pos _ _ _ ih x hx

theorem adaLoop_sample_weight_list_lengths (hX : X.length = y.length) :
    ∀ m, ∀ v ∈ (adaLoop fitf predictf X y lr m).sample_weight_list,
      v.length = y.length := by
  intro m
  induction m with
  | zero =>
    intro v hv
    simp only [adaLoop, adaInit, List.mem_singleton] at hv
    simp [hv]
  | succ m ih =>
    intro v hv
    simp only [adaLoop, adaRound, List.mem_append, List.mem_singleton] at hv
    rcases hv with h | h
    · exact ih v h
    · subst h
      simp only [updateWeights_length, incorrectVec_length, List.length_map, hX,
        adaLoop_sample_weight_length fitf predictf X y lr hX m]
      omega

/-- The sample-weight vector after round `m` is the guarded multiplicative
update of the vector before round `m`; since all weights are positive the
guard is true and the update takes the clean conditional form. -/
theorem adaLoop_step_sample_weight (hN : 0 < y.length) (m : ℕ) :
    (adaLoop fitf predictf X y lr (m + 1)).sample_weight
      = List.zipWith
          (fun wi b => if b then wi * Real.exp (roundAlpha fitf predictf X y lr m) else wi)
          (adaLoop fitf predictf X y lr m).sample_weight
          (roundIncorrect fitf predictf X y lr m) := by
  have hpos := adaLoop_sample_weight_pos fitf predictf X y lr hN m
  simp only [adaLoop, adaRound, roundAlpha, roundError, roundIncorrect]
  exact updateWeights_eq_of_pos _ _ _ hpos

end Loop

section LoopStructure

variable {π L : Type}
variable (fitf : List π → List Int → List ℝ → L) (predictf : L → π → Int)
variable (X : List π) (y : List Int) (lr : ℝ)

/-- Every stored prediction row is the fitted learner's predictions on `X`. -/
theorem adaLoop_y_predict_list (m : ℕ) :
    (adaLoop fitf predictf X y lr m).y_predict_list
      = (adaLoop fitf predictf X y lr m).estimator_list.map
          (fun l => X.map (predictf l)) := by
  induction m with
  | zero => simp [adaLoop, adaInit]
  | succ m ih =>
    simp only [adaLoop, adaRound, List.map_append, ih, List.map_cons, List.map_nil]

/-- The estimator accumulator lists the round-`m` fits, in round order. -/
theorem adaLoop_estimator_list (m : ℕ) :
    (adaLoop fitf predictf X y lr m).estimator_list
      = (List.range m).map
          (fun k => fitf X y (adaLoop fitf predictf X y lr k).sample_weight) := by
  induction m with
  | zero => simp [adaLoop, adaInit]
  | succ m ih =>
    rw [List.range_succ]
    simp only [adaLoop, adaRound, List.map_append, ih, List.map_cons, List.map_nil]

/-- The confidence-weight accumulator lists the per-round confidence weights,
in round order. -/
theorem adaLoop_estimator_weight_list (m : ℕ) :
    (adaLoop fitf predictf X y lr m).estimator_weight_list
      = (List.range m).map (fun k => roundAlpha fitf predictf X y lr k) := by
  induction m with
  | zero => simp [adaLoop, adaInit]
  | succ m ih =>
    rw [List.range_succ]
    simp only [adaLoop, adaRound, List.map_append, ih, List.map_cons, List.map_nil]
    rfl

/-- The sample-weight accumulator lists the initial vector and each round's
post-update vector, in order. -/
theorem adaLoop_sample_weight_list_eq (m : ℕ) :
    (adaLoop fitf predictf X y lr m).sample_weight_list
      = (List.range (m + 1)).map
          (fun k => (adaLoop fitf predictf X y lr k).sample_weight) := by
  induction m with
  | zero => rfl
  | succ m ih =>
    rw [List.range_succ]
    simp only [List.map_append, ← ih, List.map_cons, List.map_nil]
    simp only [adaLoop, adaRound]

/-- The stored-prediction column used in the final vote equals the learners'
predictions at the query point, so the vote is the confidence-weighted sum of
the weak learners' votes. -/
theorem votedSum_eq_learner_votes (alphas : List ℝ) (i : ℕ) (hiX : i < X.length) :
    ∀ est : List L,
      votedSum (est.map (fun l => X.map (predictf l))) alphas i
        = (List.zipWith
            (fun (a : ℝ) (l : L) => a * ((predictf l (X.get ⟨i, hiX⟩) : Int) : ℝ))
            alphas est).sum := by
  intro est
  induction est generalizing alphas with
  | nil => simp [votedSum]
  | cons l ls ih =>
    cases alphas with
    | nil => simp [votedSum]
    | cons a as =>
      have hih := ih as
      simp only [votedSum, List.map_cons, List.zipWith_cons_cons, List.sum_cons] at hih ⊢
      rw [hih]
      have hcol : (X.map (predictf l)).getD i 0 = predictf l (X.get ⟨i, hiX⟩) := by
        rw [List.getD_eq_getElem _ _ (by simpa using hiX), List.getElem_map]
        rfl
      rw [hcol, mul_comm]

end LoopStructure

/-- C2: in every round of the trainer, the sample-weight update multiplies the
weight of each misclassified example by `exp(confidence_weight)`, leaves the
weight of every correctly classified example unchanged, and performs no other
modification: the post-round vector is exactly the entrywise conditional
rescaling of the pre-round vector along the round's misclassification mask. -/
theorem claim_C2 {π L : Type} (fitf : List π → List Int → List ℝ → L)
    (predictf : L → π → Int) (X : List π) (y : List Int) (lr : ℝ)
    (hN : 0 < y.length) (m : ℕ) :
    (adaLoop fitf predictf X y lr (m + 1)).sample_weight
      = List.zipWith
          (fun wi b => if b then wi * Real.exp (roundAlpha fitf predictf X y lr m) else wi)
          (adaLoop fitf predictf X y lr m).sample_weight
          (roundIncorrect fitf predictf X y lr m) :=
  adaLoop_step_sample_weight fitf predictf X y lr hN m

theorem claim_C2_witness :
    (adaLoop constFit constPredict [0, 1] [1, -1] 1 1).sample_weight
      = List.zipWith
          (fun wi b => if b then wi * Real.exp (roundAlpha constFit constPredict [0, 1] [1, -1] 1 0) else wi)
          (adaLoop constFit constPredict [0, 1] [1, -1] 1 0).sample_weight
          (roundIncorrect constFit constPredict [0, 1] [1, -1] 1 0) :=
  claim_C2 constFit constPredict [0, 1] [1, -1] 1 (by decide) 0

/-- C3: the per-round sample-weight update is multiplicative only and never
renormalizes: the weights sum to 1 at initialization, but for any all-positive
weight vector summing to 1 whose weighted error is none of 0, 1/2, 1, the
updated vector no longer sums to 1. -/
theorem claim_C3 :
    (∀ N : ℕ, 0 < N → (List.replicate N ((1 : ℝ) / N)).sum = 1)
    ∧ (∀ (lr : ℝ) (w : List ℝ) (inc : List Bool),
        0 < lr → (∀ x ∈ w, 0 < x) → w.length = inc.length → w.sum = 1 →
        estimator_error inc w ≠ 0 → estimator_error inc w ≠ 1 / 2 →
        estimator_error inc w ≠ 1 →
        (updateWeights (estimator_weight lr (estimator_error inc w)) inc w).sum ≠ 1) := by
  constructor
  · intro N hN
    rw [List.sum_replicate, nsmul_eq_mul]
    rw [mul_one_div, div_self (by exact_mod_cast hN.ne')]
  · intro lr w inc hlr hw hlen hsum he0 heh he1
    set e := estimator_error inc w with hedef
    have hwnn : ∀ x ∈ w, 0 ≤ x := fun x hx => (hw x hx).le
    have hee : e = wdot w inc := by
      rw [hedef, estimator_error, hsum, div_one]
    have he_nonneg : 0 ≤ e := hee ▸ wdot_nonneg w inc hwnn
    have he_le : e ≤ 1 := by
      rw [hee, ← hsum]; exact wdot_le_sum w inc hwnn
    have he_pos : 0 < e := lt_of_le_of_ne he_nonneg (Ne.symm he0)
    have he_lt : e < 1 := lt_of_le_of_ne he_le he1
    have hr_pos : 0 < (1 - e) / e := div_pos (by linarith) he_pos
    rw [updateWeights_eq_of_pos _ _ _ hw, sum_cond_scale _ _ _ hlen, hsum, ← hee]
    intro hcontra
    have h1 : e * Real.exp (estimator_weight lr e) = e := by linarith
    have h2 : Real.exp (estimator_weight lr e) = 1 :=
      mul_left_cancel₀ he_pos.ne' (h1.trans (mul_one e).symm)
    rw [Real.exp_eq_one_iff] at h2
    have h3 : lr = 0 ∨ Real.log ((1 - e) / e) = 0 := mul_eq_zero.mp h2
    rcases h3 with h | h
    · exact hlr.ne' h
    · rw [Real.log_eq_zero] at h
      rcases h with h | h | h
      · exact hr_pos.ne' h
      · rw [div_eq_one_iff_eq he_pos.ne'] at h
        exact heh (by linarith)
      · linarith

theorem claim_C3_witness :
    (List.replicate 4 ((1 : ℝ) / 4)).sum = 1
    ∧ (updateWeights (estimator_weight 1 (estimator_error [true, false] [3 / 4, 1 / 4]))
        [true, false] [3 / 4, 1 / 4]).sum ≠ 1 := by
  refine ⟨claim_C3.1 4 (by norm_num), ?_⟩
  refine claim_C3.2 1 [3 / 4, 1 / 4] [true, false] (by norm_num) ?_ rfl ?_ ?_ ?_ ?_
  · intro x hx
    rcases List.mem_cons.mp hx with h | h
    · rw [h]; norm_num
    · rcases List.mem_cons.mp h with h | h
      · rw [h]; norm_num
      · simp at h
  · simp only [List.sum_cons, List.sum_nil]; norm_num
  · simp only [estimator_error, wdot, maskVal, List.zipWith_cons_cons,
      List.zipWith_nil_right, List.sum_cons, List.sum_nil, if_true, if_false]
    norm_num
  · simp only [estimator_error, wdot, maskVal, List.zipWith_cons_cons,
      List.zipWith_nil_right, List.sum_cons, List.sum_nil, if_true, if_false]
    norm_num
  · simp only [estimator_error, wdot, maskVal, List.zipWith_cons_cons,
      List.zipWith_nil_right, List.sum_cons, List.sum_nil, if_true, if_false]
    norm_num

/-- C4: the confidence weight is `learning_rate * ln((1 - error)/error)` with no
guard or clamping of the error; at error 0 or 1 it is undefined or non-finite,
in the sense that no real number can satisfy the defining relation
`exp(alpha / learning_rate) = (1 - error)/error` (the odds degenerate to a
value the exponential never attains); and this is the only failure mode: for
any error strictly between 0 and 1 the confidence weight is a genuine finite
real with `exp(alpha / learning_rate)` equal to the odds. -/
theorem claim_C4 (e lr : ℝ) :
    (estimator_weight lr e = lr * Real.log ((1 - e) / e))
    ∧ ((e = 0 ∨ e = 1) → ¬ ∃ a : ℝ, Real.exp a = (1 - e) / e)
    ∧ (0 < e → e < 1 → lr ≠ 0 →
        Real.exp (estimator_weight lr e / lr) = (1 - e) / e) := by
  refine ⟨rfl, ?_, ?_⟩
  · rintro (h | h) ⟨a, ha⟩
    · rw [h] at ha
      simp only [sub_zero, div_zero] at ha
      exact (Real.exp_pos a).ne' ha
    · rw [h] at ha
      simp only [sub_self, zero_div] at ha
      exact (Real.exp_pos a).ne' ha
  · intro h0 h1 hlr
    rw [estimator_weight, mul_div_cancel_left₀ _ hlr]
    exact Real.exp_log (div_pos (by linarith) h0)

theorem claim_C4_witness :
    (¬ ∃ a : ℝ, Real.exp a = (1 - 0) / 0)
    ∧ Real.exp (estimator_weight 1 (1 / 4) / 1) = (1 - 1 / 4) / (1 / 4) :=
  ⟨(claim_C4 0 1).2.1 (Or.inl rfl),
    (claim_C4 (1 / 4) 1).2.2 (by norm_num) (by norm_num) (by norm_num)⟩

/-- C5: for nonnegative sample weights of positive total, the weighted error
rate lies in [0, 1]; and for positive learning rate and error strictly between
0 and 1 the confidence weight is strictly positive below error 1/2 and strictly
negative above it. -/
theorem claim_C5 :
    (∀ (inc : List Bool) (w : List ℝ), (∀ x ∈ w, 0 ≤ x) → 0 < w.sum →
        0 ≤ estimator_error inc w ∧ estimator_error inc w ≤ 1)
    ∧ (∀ lr e : ℝ, 0 < lr → 0 < e → e < 1 →
        (e < 1 / 2 → 0 < estimator_weight lr e)
        ∧ (1 / 2 < e → estimator_weight lr e < 0)) := by
  constructor
  · intro inc w hw hsum
    constructor
    · exact div_nonneg (wdot_nonneg w inc hw) hsum.le
    · rw [estimator_error, div_le_one hsum]
      exact wdot_le_sum w inc hw
  · intro lr e hlr h0 h1
    constructor
    · intro hlt
      refine mul_pos hlr (Real.log_pos ?_)
      rw [lt_div_iff h0]
      linarith
    · intro hgt
      have hlog : Real.log ((1 - e) / e) < 0 := by
        refine Real.log_neg (div_pos (by linarith) h0) ?_
        rw [div_lt_one h0]
        linarith
      exact mul_neg_of_pos_of_neg hlr hlog

theorem claim_C5_witness :
    (0 ≤ estimator_error [true] [(1 : ℝ)] ∧ estimator_error [true] [(1 : ℝ)] ≤ 1)
    ∧ 0 < estimator_weight 1 (1 / 4) := by
  constructor
  · refine claim_C5.1 [true] [(1 : ℝ)] ?_ ?_
    · intro x hx
      rcases List.mem_cons.mp hx with h | h
      · rw [h]; norm_num
      · simp at h
    · simp
  · exact (claim_C5.2 1 (1 / 4) (by norm_num) (by norm_num) (by norm_num)).1 (by norm_num)

/-- C8: for well-shaped input (`len(X) = len(y) = N`) the sample-weight vector
has length exactly N before the first round and after every round, and every
snapshot recorded in `sample_weight_list` has length N: only values change
across rounds, never the length. -/
theorem claim_C8 {π L : Type} (fitf : List π → List Int → List ℝ → L)
    (predictf : L → π → Int) (X : List π) (y : List Int) (lr : ℝ)
    (hX : X.length = y.length) (m : ℕ) :
    (adaLoop fitf predictf X y lr m).sample_weight.length = y.length
    ∧ ∀ v ∈ (adaLoop fitf predictf X y lr m).sample_weight_list,
        v.length = y.length :=
  ⟨adaLoop_sample_weight_length fitf predictf X y lr hX m,
    adaLoop_sample_weight_list_lengths fitf predictf X y lr hX m⟩

theorem claim_C8_witness :
    (adaLoop constFit constPredict [0, 1] [1, -1] 1 3).sample_weight.length
      = ([1, -1] : List Int).length
    ∧ ∀ v ∈ (adaLoop constFit constPredict [0, 1] [1, -1] 1 3).sample_weight_list,
        v.length = ([1, -1] : List Int).length :=
  claim_C8 constFit constPredict [0, 1] [1, -1] 1 rfl 3

/-- C10: every entry of the sample-weight vector stays strictly positive
throughout training (each starts at `1/N > 0` and is only multiplied by values
of the form `exp(x) > 0`), hence the `(sample_weight > 0)` disjunct of the
guard in the update expression is always true, and the update reduces to
multiplying the misclassified entries by `exp(estimator_weight)` regardless of
the sign of `estimator_weight`. -/
theorem claim_C10 {π L : Type} (fitf : List π → List Int → List ℝ → L)
    (predictf : L → π → Int) (X : List π) (y : List Int) (lr : ℝ)
    (hN : 0 < y.length) (m : ℕ)
    (herr : ∀ k < m, 0 < roundError fitf predictf X y lr k
        ∧ roundError fitf predictf X y lr k < 1) :
    (∀ x ∈ (adaLoop fitf predictf X y lr m).sample_weight, 0 < x)
    ∧ (∀ x ∈ (adaLoop fitf predictf X y lr m).sample_weight,
        0 < x ∨ roundAlpha fitf predictf X y lr m < 0)
    ∧ updateWeights (roundAlpha fitf predictf X y lr m)
        (roundIncorrect fitf predictf X y lr m)
        (adaLoop fitf predictf X y lr m).sample_weight
      = List.zipWith
          (fun wi b => if b then wi * Real.exp (roundAlpha fitf predictf X y lr m) else wi)
          (adaLoop fitf predictf X y lr m).sample_weight
          (roundIncorrect fitf predictf X y lr m) := by
  have hpos := adaLoop_sample_weight_pos fitf predictf X y lr hN m
  exact ⟨hpos, fun x hx => Or.inl (hpos x hx),
    updateWeights_eq_of_pos _ _ _ hpos⟩

theorem claim_C10_witness :
    (∀ x ∈ (adaLoop constFit constPredict [0, 1] [1, -1] 1 0).sample_weight, 0 < x)
    ∧ (∀ x ∈ (adaLoop constFit constPredict [0, 1] [1, -1] 1 0).sample_weight,
        0 < x ∨ roundAlpha constFit constPredict [0, 1] [1, -1] 1 0 < 0)
    ∧ updateWeights (roundAlpha constFit constPredict [0, 1] [1, -1] 1 0)
        (roundIncorrect constFit constPredict [0, 1] [1, -1] 1 0)
        (adaLoop constFit constPredict [0, 1] [1, -1] 1 0).sample_weight
      = List.zipWith
          (fun wi b =>
            if b then wi * Real.exp (roundAlpha constFit constPredict [0, 1] [1, -1] 1 0) else wi)
          (adaLoop constFit constPredict [0, 1] [1, -1] 1 0).sample_weight
          (roundIncorrect constFit constPredict [0, 1] [1, -1] 1 0) :=
  claim_C10 constFit constPredict [0, 1] [1, -1] 1 (by decide) 0
    (fun k hk => absurd hk (Nat.not_lt_zero k))

/-- C6: for every training point, the ensemble prediction computed by the
trainer equals the sign of the confidence-weighted sum of the individual weak
learners' predictions at that point: a confidence-weighted majority vote. -/
theorem claim_C6 {π L : Type} (fitf : List π → List Int → List ℝ → L)
    (predictf : L → π → Int) (X : List π) (y : List Int) (lr : ℝ)
    (M i : ℕ) (hiX : i < X.length) (hiN : i < y.length) :
    (predsOf (adaLoop fitf predictf X y lr M) y.length).getD i 0
      = rsign ((List.zipWith
          (fun (a : ℝ) (l : L) => a * ((predictf l (X.get ⟨i, hiX⟩) : Int) : ℝ))
          (adaLoop fitf predictf X y lr M).estimator_weight_list
          (adaLoop fitf predictf X y lr M).estimator_list).sum) := by
  rw [predsOf, List.getD_eq_getElem _ _ (by simpa using hiN), List.getElem_map,
    List.getElem_range, adaLoop_y_predict_list,
    votedSum_eq_learner_votes predictf X _ i hiX]

theorem claim_C6_witness :
    (predsOf (adaLoop constFit constPredict [0, 1] [1, -1] 1 1) ([1, -1] : List Int).length).getD 0 0
      = rsign ((List.zipWith
          (fun (a : ℝ) (l : Int) => a * ((constPredict l (([0, 1] : List ℕ).get ⟨0, by decide⟩) : Int) : ℝ))
          (adaLoop constFit constPredict [0, 1] [1, -1] 1 1).estimator_weight_list
          (adaLoop constFit constPredict [0, 1] [1, -1] 1 1).estimator_list).sum) :=
  claim_C6 constFit constPredict [0, 1] [1, -1] 1 1 0 (by decide) (by decide)

theorem optList_none_cons {A : Type} (os : List (Option A)) :
    optList ((none : Option A) :: os) = none := rfl

theorem optList_map_some {A B : Type} (f : B → A) :
    ∀ l : List B, optList (l.map (fun b => some (f b))) = some (l.map f) := by
  intro l
  induction l with
  | nil => rfl
  | cons a as ih =>
    simp [optList, ih]

theorem colVote_nil (alphas : List ℝ) (point : ℕ) :
    colVote ([] : List (List Int)) alphas point = none := rfl

/-- With zero recorded rounds, the prediction comprehension fails at its first
point: the column access on the empty 1-D array raises. -/
theorem predsOpt_zero_rounds {π L : Type} (fitf : List π → List Int → List ℝ → L)
    (predictf : L → π → Int) (X : List π) (y : List Int) (lr : ℝ)
    (hN : 0 < y.length) :
    predsOpt (adaLoop fitf predictf X y lr 0) y.length = none := by
  obtain ⟨n, hn⟩ : ∃ n, y.length = n + 1 := ⟨y.length - 1, by omega⟩
  show optList ((List.range y.length).map (colVote [] [])) = none
  rw [hn, List.range_succ_eq_map, List.map_cons, colVote_nil]
  exact optList_none_cons _

/-- On a state whose prediction matrix has at least one row of length at least
`N`, the fallible prediction computation succeeds and returns exactly the
totalized `predsOf` value. -/
theorem predsOpt_of_first_row {L : Type} (st : AdaState L) (N : ℕ)
    (r : List Int) (rs : List (List Int)) (hr : st.y_predict_list = r :: rs)
    (hN : N ≤ r.length) :
    predsOpt st N = some (predsOf st N) := by
  rw [predsOpt, predsOf]
  have hcol : ∀ i ∈ List.range N,
      colVote st.y_predict_list st.estimator_weight_list i
        = some (rsign (votedSum st.y_predict_list st.estimator_weight_list i)) := by
    intro i hi
    have hilt : i < r.length := lt_of_lt_of_le (List.mem_range.mp hi) hN
    rw [colVote, hr, column, if_pos hilt]
    show some _ = some _
    refine congrArg _ (congrArg _ ?_)
    rw [votedSum, List.zipWith_map_left]
  rw [List.map_congr_left hcol]
  exact optList_map_some _ _

/-- For every completed run (`M ≥ 1`) on well-shaped input the fallible
prediction computation agrees with `predsOf`: the faulting access only
concerns the zero-round case. -/
theorem predsOpt_run_succ {π L : Type} (fitf : List π → List Int → List ℝ → L)
    (predictf : L → π → Int) (X : List π) (y : List Int) (lr : ℝ)
    (hX : X.length = y.length) (m : ℕ) :
    predsOpt (adaLoop fitf predictf X y lr (m + 1)) y.length
      = some (predsOf (adaLoop fitf predictf X y lr (m + 1)) y.length) := by
  have h := adaLoop_y_predict_list fitf predictf X y lr (m + 1)
  rw [adaLoop_estimator_list, List.range_succ_eq_map, List.map_cons, List.map_cons] at h
  refine predsOpt_of_first_row _ _ _ _ h ?_
  rw [List.length_map, hX]

/-- C9 (counterexample): at a concrete valid input with `M = 0`, the loop
records no prediction rows, so the very first column access of the `preds`
comprehension fails (`np.asarray([])` is 1-D and `[:, 0]` raises IndexError):
the prediction vector and the printed accuracy do not exist, contradicting the
claim that the vote is 0 everywhere and the reported accuracy is 0. -/
theorem claim_C9_counterexample :
    (adaLoop constFit constPredict [0, 1] [1, -1] 1 0).y_predict_list
        = ([] : List (List Int))
    ∧ column ((adaLoop constFit constPredict [0, 1] [1, -1] 1 0).y_predict_list) 0 = none
    ∧ predsOpt (adaLoop constFit constPredict [0, 1] [1, -1] 1 0)
        ([1, -1] : List Int).length = none
    ∧ printedAccuracyOpt constFit constPredict [0, 1] [1, -1] 0 1 = none :=
  ⟨rfl, rfl, rfl, rfl⟩

/-- C9 (amended): called with `M = 0` the trainer runs zero rounds, leaving the
estimator and confidence-weight accumulators empty and the sample-weight
history holding only the initial uniform `1/N` vector; but the prediction step
then raises IndexError — with no recorded rounds `np.asarray(y_predict_list)`
is a 1-D empty array and the column access `y_predict_list[:, point]` fails at
the first point — so no accuracy is printed and the `return` statement is
never reached. -/
theorem claim_C9_amended {π L : Type} (fitf : List π → List Int → List ℝ → L)
    (predictf : L → π → Int) (X : List π) (y : List Int) (lr : ℝ)
    (hN : 0 < y.length) :
    (adaLoop fitf predictf X y lr 0).estimator_list = ([] : List L)
    ∧ (adaLoop fitf predictf X y lr 0).estimator_weight_list = []
    ∧ (adaLoop fitf predictf X y lr 0).sample_weight_list
        = [List.replicate y.length ((1 : ℝ) / y.length)]
    ∧ (adaLoop fitf predictf X y lr 0).y_predict_list = []
    ∧ predsOpt (adaLoop fitf predictf X y lr 0) y.length = none
    ∧ printedAccuracyOpt fitf predictf X y 0 lr = none := by
  refine ⟨rfl, rfl, rfl, rfl, predsOpt_zero_rounds fitf predictf X y lr hN, ?_⟩
  rw [printedAccuracyOpt, predsOpt_zero_rounds fitf predictf X y lr hN]
  rfl

theorem claim_C9_amended_witness :
    (adaLoop constFit constPredict [0, 1] [1, -1] 1 0).estimator_list = ([] : List Int)
    ∧ (adaLoop constFit constPredict [0, 1] [1, -1] 1 0).estimator_weight_list = []
    ∧ (adaLoop constFit constPredict [0, 1] [1, -1] 1 0).sample_weight_list
        = [List.replicate ([1, -1] : List Int).length
            ((1 : ℝ) / ([1, -1] : List Int).length)]
    ∧ (adaLoop constFit constPredict [0, 1] [1, -1] 1 0).y_predict_list = []
    ∧ predsOpt (adaLoop constFit constPredict [0, 1] [1, -1] 1 0)
        ([1, -1] : List Int).length = none
    ∧ printedAccuracyOpt constFit constPredict [0, 1] [1, -1] 0 1 = none :=
  claim_C9_amended constFit constPredict [0, 1] [1, -1] 1 (by decide)

/-- C1 (amended): the trainer's return value is the ordered per-round sequence
of fitted weak learners together with the matching ordered sequence of
confidence weights (plus the history of sample-weight vectors), while the
final training accuracy is only printed as a diagnostic, not returned. -/
theorem claim_C1_amended {π L : Type} (fitf : List π → List Int → List ℝ → L)
    (predictf : L → π → Int) (X : List π) (y : List Int) (M : ℕ) (lr : ℝ) :
    (Adaboost_scratch fitf predictf X y M lr).estimator_list
      = (List.range M).map
          (fun m => fitf X y (adaLoop fitf predictf X y lr m).sample_weight)
    ∧ (Adaboost_scratch fitf predictf X y M lr).estimator_weight_list
      = (List.range M).map (fun m => roundAlpha fitf predictf X y lr m)
    ∧ (Adaboost_scratch fitf predictf X y M lr).sample_weight_list
      = (List.range (M + 1)).map
          (fun m => (adaLoop fitf predictf X y lr m).sample_weight)
    ∧ Adaboost_printed_accuracy fitf predictf X y M lr
      = accuracyOf (predsOf (adaLoop fitf predictf X y lr M) y.length) y :=
  ⟨adaLoop_estimator_list fitf predictf X y lr M,
    adaLoop_estimator_weight_list fitf predictf X y lr M,
    adaLoop_sample_weight_list_eq fitf predictf X y lr M, rfl⟩

/-! Concrete one-round run used to refute the claim that the training accuracy
is part of the trainer's return value: five points, constant +1 learner,
labels `[1, 1, 1, -1, -1]`, `M = 1`, `learning_rate = 1`. -/

theorem c1run_inc :
    roundIncorrect constFit constPredict [0, 1, 2, 3, 4] [1, 1, 1, -1, -1] 1 0
      = [false, false, false, true, true] := rfl

theorem c1run_w0 :
    (adaLoop constFit constPredict [0, 1, 2, 3, 4] [1, 1, 1, -1, -1] 1 0).sample_weight
      = List.replicate 5 ((1 : ℝ) / 5) := by
  norm_num [adaLoop, adaInit]

theorem c1run_err :
    roundError constFit constPredict [0, 1, 2, 3, 4] [1, 1, 1, -1, -1] 1 0 = 2 / 5 := by
  rw [roundError, c1run_inc, c1run_w0]
  simp only [estimator_error, wdot, maskVal, List.replicate, List.zipWith_cons_cons,
    List.zipWith_nil_right, List.sum_cons, List.sum_nil, if_true, if_false]
  norm_num

theorem c1run_alpha :
    roundAlpha constFit constPredict [0, 1, 2, 3, 4] [1, 1, 1, -1, -1] 1 0
      = Real.log (3 / 2) := by
  rw [roundAlpha, c1run_err, estimator_weight]
  norm_num

theorem c1run_w1 :
    (adaLoop constFit constPredict [0, 1, 2, 3, 4] [1, 1, 1, -1, -1] 1 1).sample_weight
      = [1 / 5, 1 / 5, 1 / 5, 3 / 10, 3 / 10] := by
  rw [adaLoop_step_sample_weight constFit constPredict [0, 1, 2, 3, 4] [1, 1, 1, -1, -1] 1
    (by decide) 0, c1run_inc, c1run_w0, c1run_alpha]
  rw [Real.exp_log (by norm_num : (0 : ℝ) < 3 / 2)]
  simp only [List.replicate, List.zipWith_cons_cons, List.zipWith_nil_right,
    Bool.false_eq_true, if_false, if_true]
  norm_num

theorem c1run_alpha_list :
    (adaLoop constFit constPredict [0, 1, 2, 3, 4] [1, 1, 1, -1, -1] 1 1).estimator_weight_list
      = [Real.log (3 / 2)] := by
  rw [adaLoop_estimator_weight_list]
  simp only [List.range_succ, List.range_zero, List.nil_append, List.map_cons,
    List.map_nil, c1run_alpha]

theorem c1run_y_predict_list :
    (adaLoop constFit constPredict [0, 1, 2, 3, 4] [1, 1, 1, -1, -1] 1 1).y_predict_list
      = [[1, 1, 1, 1, 1]] := rfl

theorem c1run_log_pos : 0 < Real.log ((3 : ℝ) / 2) :=
  Real.log_pos (by norm_num)

theorem c1run_preds :
    predsOf (adaLoop constFit constPredict [0, 1, 2, 3, 4] [1, 1, 1, -1, -1] 1 1) 5
      = [1, 1, 1, 1, 1] := by
  have h := c1run_log_pos
  rw [predsOf, c1run_y_predict_list, c1run_alpha_list]
  norm_num [List.range_succ, votedSum, rsign, h]

theorem c1run_log_ne : Real.log ((3 : ℝ) / 2) ≠ 3 / 5 := by
  have h1 : (3 / 2 : ℝ) < Real.exp (3 / 5) := by
    have h2 := Real.add_one_le_exp (3 / 5 : ℝ)
    linarith
  have h3 : Real.log ((3 : ℝ) / 2) < 3 / 5 := by
    have h4 := Real.log_lt_log (by norm_num : (0 : ℝ) < 3 / 2) h1
    rwa [Real.log_exp] at h4
  exact ne_of_lt h3

/-- C1 (counterexample): on a concrete valid input (five points, labels in
{-1, +1}, one round, learning rate 1) the accuracy figure the trainer prints
is 3/5, yet 3/5 occurs nowhere in the returned triple: it differs from every
returned confidence weight, from every entry of every returned sample-weight
snapshot, and from every returned learner's label, so the final training
accuracy is not part of the return value. -/
theorem claim_C1_counterexample :
    Adaboost_printed_accuracy constFit constPredict [0, 1, 2, 3, 4] [1, 1, 1, -1, -1] 1 1
      = 3 / 5
    ∧ (∀ a ∈ (Adaboost_scratch constFit constPredict
        [0, 1, 2, 3, 4] [1, 1, 1, -1, -1] 1 1).estimator_weight_list, a ≠ 3 / 5)
    ∧ (∀ v ∈ (Adaboost_scratch constFit constPredict
        [0, 1, 2, 3, 4] [1, 1, 1, -1, -1] 1 1).sample_weight_list,
        ∀ x ∈ v, x ≠ 3 / 5)
    ∧ (∀ l ∈ (Adaboost_scratch constFit constPredict
        [0, 1, 2, 3, 4] [1, 1, 1, -1, -1] 1 1).estimator_list, ((l : Int) : ℝ) ≠ 3 / 5) := by
  have hsw : (Adaboost_scratch constFit constPredict
      [0, 1, 2, 3, 4] [1, 1, 1, -1, -1] 1 1).sample_weight_list
      = [List.replicate 5 ((1 : ℝ) / 5), [1 / 5, 1 / 5, 1 / 5, 3 / 10, 3 / 10]] := by
    show (adaLoop constFit constPredict [0, 1, 2, 3, 4] [1, 1, 1, -1, -1] 1 1).sample_weight_list
      = _
    rw [adaLoop_sample_weight_list_eq]
    simp only [List.range_succ, List.range_zero, List.nil_append, List.map_append,
      List.map_cons, List.map_nil, c1run_w0, c1run_w1]
    rfl
  refine ⟨?_, ?_, ?_, ?_⟩
  · show accuracyOf (predsOf (adaLoop constFit constPredict
      [0, 1, 2, 3, 4] [1, 1, 1, -1, -1] 1 1) 5) [1, 1, 1, -1, -1] = 3 / 5
    rw [c1run_preds, accuracyOf]
    norm_num
  · show ∀ a ∈ (adaLoop constFit constPredict
      [0, 1, 2, 3, 4] [1, 1, 1, -1, -1] 1 1).estimator_weight_list, a ≠ 3 / 5
    rw [c1run_alpha_list]
    intro a ha
    rw [List.mem_singleton.mp ha]
    exact c1run_log_ne
  · rw [hsw]
    intro v hv x hx
    rcases List.mem_cons.mp hv with h | h
    · subst h
      rw [List.eq_of_mem_replicate hx]
      norm_num
    · rw [List.mem_singleton.mp h] at hx
      simp only [List.mem_cons, List.not_mem_nil, or_false] at hx
      rcases hx with h | h | h | h | h <;> rw [h] <;> norm_num
  · intro l hl
    have : l = 1 := by
      have hel : (Adaboost_scratch constFit constPredict
          [0, 1, 2, 3, 4] [1, 1, 1, -1, -1] 1 1).estimator_list = [1] := rfl
      rw [hel] at hl
      exact List.mem_singleton.mp hl
    rw [this]
    norm_num

/-! Bridge between the real-weight stump fit and its exact integer shadow.
Coordinates are related by `phi n = (n : ℝ) / 200` (`ptR` on points), weight
vectors by `w = wZ.map (fun n => lam * (n : ℝ))` for a scalar `lam > 0`. -/

theorem phiZ_lt_iff (a b : ℤ) : (a : ℝ) / 200 < (b : ℝ) / 200 ↔ a < b := by
  rw [div_lt_div_iff_of_pos_right (by norm_num : (0 : ℝ) < 200)]
  exact_mod_cast Iff.rfl

theorem phiZ_add (a b : ℤ) : ((a + b : ℤ) : ℝ) / 200 = (a : ℝ) / 200 + (b : ℝ) / 200 := by
  push_cast
  ring

theorem minAbove_map (v : ℤ) (l : List ℤ) :
    minAbove ((v : ℝ) / 200) (l.map (fun n : ℤ => (n : ℝ) / 200))
      = (minAbove v l).map (fun n : ℤ => (n : ℝ) / 200) := by
  induction l with
  | nil => rfl
  | cons c cs ih =>
    simp only [List.map_cons, minAbove, ih]
    cases h : minAbove v cs with
    | none =>
      by_cases hvc : v < c
      · simp [if_pos ((phiZ_lt_iff v c).mpr hvc), if_pos hvc]
      · simp [if_neg (fun hc => hvc ((phiZ_lt_iff v c).mp hc)), if_neg hvc]
    | some m =>
      by_cases hvc : v < c
      · by_cases hcm : c < m
        · simp [if_pos ((phiZ_lt_iff v c).mpr hvc), if_pos hvc,
            if_pos ((phiZ_lt_iff c m).mpr hcm), if_pos hcm]
        · simp [if_pos ((phiZ_lt_iff v c).mpr hvc), if_pos hvc,
            if_neg (fun hc => hcm ((phiZ_lt_iff c m).mp hc)), if_neg hcm]
      · simp [if_neg (fun hc => hvc ((phiZ_lt_iff v c).mp hc)), if_neg hvc]

theorem candThresholds_map (l : List ℤ) :
    candThresholds (l.map (fun n : ℤ => (n : ℝ) / 200))
      = (candThresholds l).map (fun n : ℤ => (n : ℝ) / 200) := by
  rw [candThresholds, candThresholds, List.filterMap_map, List.map_filterMap]
  refine List.filterMap_congr ?_
  intro a _
  simp only [Function.comp_apply, minAbove_map, Option.map_map]
  refine congrArg₂ _ ?_ rfl
  funext b
  simp only [Function.comp_apply]
  rw [← phiZ_add]

theorem coordOf_ptR (f : Bool) (X : List (ℤ × ℤ)) :
    (X.map ptR).map (coordOf f) = (X.map (coordOf f)).map (fun n : ℤ => (n : ℝ) / 200) := by
  rw [List.map_map, List.map_map]
  refine List.map_congr_left ?_
  intro p _
  cases f <;> rfl

theorem candList_map (X : List (ℤ × ℤ)) :
    candList (X.map ptR) = (candList X).map (fun c => (c.1, (c.2 : ℝ) / 200)) := by
  rw [candList, candList, coordOf_ptR, coordOf_ptR, candThresholds_map, candThresholds_map,
    List.map_append, List.map_map, List.map_map, List.map_map, List.map_map]
  rfl

theorem sideOf_toR (f : Bool) (t2 : ℤ) (p : ℤ × ℤ) :
    sideOf f ((t2 : ℝ) / 200) (ptR p) = sideOf f t2 p := by
  rw [sideOf, sideOf]
  refine decide_eq_decide.mpr ?_
  have hc : coordOf f (ptR p) = ((coordOf f p : ℤ) : ℝ) / 200 := by
    cases f <;> rfl
  rw [hc, ← mul_div_assoc, div_le_div_iff_of_pos_right (by norm_num : (0 : ℝ) < 200)]
  exact_mod_cast Iff.rfl

theorem wcount_toR (lam : ℝ) (f : Bool) (t2 : ℤ) (onLeft : Bool) (lab : Int) :
    ∀ (X : List (ℤ × ℤ)) (q : List (Int × ℤ)),
      (List.zipWith (fun p (qw : Int × ℝ) =>
          if sideOf f ((t2 : ℝ) / 200) p = onLeft ∧ qw.1 = lab then qw.2 else 0)
        (X.map ptR) (q.map (Prod.map id (fun n : ℤ => lam * (n : ℝ))))).sum
      = lam * (((List.zipWith (fun p (qw : Int × ℤ) =>
          if sideOf f t2 p = onLeft ∧ qw.1 = lab then qw.2 else 0) X q).sum : ℤ) : ℝ) := by
  intro X
  induction X with
  | nil => intro q; simp
  | cons p ps ih =>
    intro q
    cases q with
    | nil => simp
    | cons r rs =>
      have hih := ih rs
      simp only [List.map_cons, List.zipWith_cons_cons, List.sum_cons, hih]
      rw [sideOf_toR]
      by_cases hcond : sideOf f t2 p = onLeft ∧ r.1 = lab
      · rw [if_pos hcond, if_pos ⟨hcond.1, hcond.2⟩]
        simp only [Prod.map_snd, id_eq]
        push_cast
        ring
      · rw [if_neg ?_, if_neg hcond]
        · push_cast; ring
        · exact fun hc => hcond ⟨hc.1, hc.2⟩

theorem wcount_map_scale (lam : ℝ) (f : Bool) (t2 : ℤ) (onLeft : Bool) (lab : Int)
    (X : List (ℤ × ℤ)) (y : List Int) (w : List ℤ) :
    wcount f ((t2 : ℝ) / 200) onLeft lab (X.map ptR) y (w.map (fun n : ℤ => lam * (n : ℝ)))
      = lam * ((wcount f t2 onLeft lab X y w : ℤ) : ℝ) := by
  rw [wcount, wcount, List.zip_map_right]
  exact wcount_toR lam f t2 onLeft lab X (y.zip w)

theorem wcount_nonneg_int (f : Bool) (t2 : ℤ) (onLeft : Bool) (lab : Int) :
    ∀ (X : List (ℤ × ℤ)) (q : List (Int × ℤ)), (∀ r ∈ q, 0 ≤ r.2) →
      0 ≤ (List.zipWith (fun p (qw : Int × ℤ) =>
          if sideOf f t2 p = onLeft ∧ qw.1 = lab then qw.2 else 0) X q).sum := by
  intro X
  induction X with
  | nil => intro q _; simp
  | cons p ps ih =>
    intro q hq
    cases q with
    | nil => simp
    | cons r rs =>
      have hih := ih rs (fun s hs => hq s (by simp [hs]))
      simp only [List.zipWith_cons_cons, List.sum_cons]
      have hterm : 0 ≤ if sideOf f t2 p = onLeft ∧ r.1 = lab then r.2 else 0 := by
        by_cases hc : sideOf f t2 p = onLeft ∧ r.1 = lab
        · rw [if_pos hc]; exact hq r (by simp)
        · rw [if_neg hc]
      linarith

theorem wcount_nonneg_z (f : Bool) (t2 : ℤ) (onLeft : Bool) (lab : Int)
    (X : List (ℤ × ℤ)) (y : List Int) (w : List ℤ) (hw : ∀ n ∈ w, 0 ≤ n) :
    0 ≤ wcount f t2 onLeft lab X y w := by
  rw [wcount]
  refine wcount_nonneg_int f t2 onLeft lab X (y.zip w) ?_
  intro r hr
  exact hw r.2 (List.of_mem_zip hr).2

theorem gvZ_den_pos (X : List (ℤ × ℤ)) (y : List Int) (w : List ℤ)
    (hw : ∀ n ∈ w, 0 ≤ n) (c : Bool × ℤ) : 0 < (gvZ X y w c).2 := by
  rw [gvZ]
  simp only
  have hl := wcount_nonneg_z c.1 c.2 true 1 X y w hw
  have hl' := wcount_nonneg_z c.1 c.2 true (-1) X y w hw
  have hr := wcount_nonneg_z c.1 c.2 false 1 X y w hw
  have hr' := wcount_nonneg_z c.1 c.2 false (-1) X y w hw
  have hLpos : wcount c.1 c.2 true 1 X y w + wcount c.1 c.2 true (-1) X y w ≠ 0 →
      0 < wcount c.1 c.2 true 1 X y w + wcount c.1 c.2 true (-1) X y w :=
    fun h => lt_of_le_of_ne (add_nonneg hl hl') (Ne.symm h)
  have hRpos : wcount c.1 c.2 false 1 X y w + wcount c.1 c.2 false (-1) X y w ≠ 0 →
      0 < wcount c.1 c.2 false 1 X y w + wcount c.1 c.2 false (-1) X y w :=
    fun h => lt_of_le_of_ne (add_nonneg hr hr') (Ne.symm h)
  by_cases h1 : wcount c.1 c.2 true 1 X y w + wcount c.1 c.2 true (-1) X y w = 0
  · by_cases h2 : wcount c.1 c.2 false 1 X y w + wcount c.1 c.2 false (-1) X y w = 0
    · rw [if_pos h1, if_pos h2]; norm_num
    · rw [if_pos h1, if_neg h2]; simpa using hRpos h2
  · by_cases h2 : wcount c.1 c.2 false 1 X y w + wcount c.1 c.2 false (-1) X y w = 0
    · rw [if_neg h1, if_pos h2]; simpa using hLpos h1
    · rw [if_neg h1, if_neg h2]; exact mul_pos (hLpos h1) (hRpos h2)

theorem lam_div_helper (lam a b s : ℝ) (hlam : lam ≠ 0) (hs : s ≠ 0) :
    lam * a * (lam * b) / (lam * s) = lam * (a * b / s) := by
  field_simp
  ring

theorem gvR_toR (lam : ℝ) (hlam : 0 < lam) (X : List (ℤ × ℤ)) (y : List Int)
    (w : List ℤ) (c : Bool × ℤ) :
    gvR (X.map ptR) y (w.map (fun n : ℤ => lam * (n : ℝ))) (c.1, (c.2 : ℝ) / 200)
      = lam * (((gvZ X y w c).1 : ℝ) / ((gvZ X y w c).2 : ℝ)) := by
  rw [gvR, gvZ]
  simp only [wcount_map_scale]
  set lp := wcount c.1 c.2 true 1 X y w with hlp
  set ln := wcount c.1 c.2 true (-1) X y w with hln
  set rp := wcount c.1 c.2 false 1 X y w with hrp
  set rn := wcount c.1 c.2 false (-1) X y w with hrn
  have hlamne : lam ≠ 0 := hlam.ne'
  have hL : lam * (lp : ℝ) + lam * (ln : ℝ) = lam * ((lp + ln : ℤ) : ℝ) := by
    push_cast; ring
  have hRR : lam * (rp : ℝ) + lam * (rn : ℝ) = lam * ((rp + rn : ℤ) : ℝ) := by
    push_cast; ring
  rw [hL, hRR]
  by_cases h1 : lp + ln = 0
  · by_cases h2 : rp + rn = 0
    · rw [if_pos (by rw [h1]; simp), if_pos (by rw [h2]; simp), if_pos h1, if_pos h2]
      norm_num
    · have h2c : ((rp + rn : ℤ) : ℝ) ≠ 0 := Int.cast_ne_zero.mpr h2
      rw [if_pos (by rw [h1]; simp), if_neg (mul_ne_zero hlamne h2c), if_pos h1, if_neg h2]
      push_cast at h2c ⊢
      rw [lam_div_helper lam _ _ _ hlamne h2c]
      ring_nf
  · have h1c : ((lp + ln : ℤ) : ℝ) ≠ 0 := Int.cast_ne_zero.mpr h1
    by_cases h2 : rp + rn = 0
    · rw [if_neg (mul_ne_zero hlamne h1c), if_pos (by rw [h2]; simp), if_neg h1, if_pos h2]
      push_cast at h1c ⊢
      rw [lam_div_helper lam _ _ _ hlamne h1c]
      ring_nf
    · have h2c : ((rp + rn : ℤ) : ℝ) ≠ 0 := Int.cast_ne_zero.mpr h2
      rw [if_neg (mul_ne_zero hlamne h1c), if_neg (mul_ne_zero hlamne h2c), if_neg h1,
        if_neg h2]
      push_cast at h1c h2c ⊢
      rw [lam_div_helper lam _ _ _ hlamne h1c, lam_div_helper lam _ _ _ hlamne h2c,
        ← mul_add, div_add_div _ _ h1c h2c]
      ring_nf

theorem gvR_lt_iff (lam : ℝ) (hlam : 0 < lam) (X : List (ℤ × ℤ)) (y : List Int)
    (w : List ℤ) (hw : ∀ n ∈ w, 0 ≤ n) (c b : Bool × ℤ) :
    (gvR (X.map ptR) y (w.map (fun n : ℤ => lam * (n : ℝ))) (c.1, (c.2 : ℝ) / 200)
        < gvR (X.map ptR) y (w.map (fun n : ℤ => lam * (n : ℝ))) (b.1, (b.2 : ℝ) / 200))
      ↔ (gvZ X y w c).1 * (gvZ X y w b).2 < (gvZ X y w b).1 * (gvZ X y w c).2 := by
  rw [gvR_toR lam hlam, gvR_toR lam hlam, mul_lt_mul_left hlam,
    div_lt_div_iff (by exact_mod_cast gvZ_den_pos X y w hw c)
      (by exact_mod_cast gvZ_den_pos X y w hw b)]
  exact_mod_cast Iff.rfl

theorem bestCand_fold_toR (lam : ℝ) (hlam : 0 < lam) (X : List (ℤ × ℤ)) (y : List Int)
    (w : List ℤ) (hw : ∀ n ∈ w, 0 ≤ n) :
    ∀ (cs : List (Bool × ℤ)) (b : Bool × ℤ),
      (cs.map (fun c => (c.1, (c.2 : ℝ) / 200))).foldl
        (fun b c2 =>
          if gvR (X.map ptR) y (w.map (fun n : ℤ => lam * (n : ℝ))) c2
              < gvR (X.map ptR) y (w.map (fun n : ℤ => lam * (n : ℝ))) b
          then c2 else b)
        (b.1, (b.2 : ℝ) / 200)
      = (let bz := cs.foldl
          (fun b c2 =>
            if (gvZ X y w c2).1 * (gvZ X y w b).2 < (gvZ X y w b).1 * (gvZ X y w c2).2
            then c2 else b) b
        (bz.1, (bz.2 : ℝ) / 200)) := by
  intro cs
  induction cs with
  | nil => intro b; rfl
  | cons c cs ih =>
    intro b
    rw [List.map_cons, List.foldl_cons, List.foldl_cons]
    by_cases h : (gvZ X y w c).1 * (gvZ X y w b).2 < (gvZ X y w b).1 * (gvZ X y w c).2
    · rw [if_pos ((gvR_lt_iff lam hlam X y w hw c b).mpr h), if_pos h]
      exact ih c
    · rw [if_neg (fun hc => h ((gvR_lt_iff lam hlam X y w hw c b).mp hc)), if_neg h]
      exact ih b

theorem bestCandR_toR (lam : ℝ) (hlam : 0 < lam) (X : List (ℤ × ℤ)) (y : List Int)
    (w : List ℤ) (hw : ∀ n ∈ w, 0 ≤ n) :
    bestCandR (X.map ptR) y (w.map (fun n : ℤ => lam * (n : ℝ)))
      = (bestCandZ X y w).map (fun c => (c.1, (c.2 : ℝ) / 200)) := by
  rw [bestCandR, bestCandZ, candList_map]
  cases hc : candList X with
  | nil => rfl
  | cons c cs =>
    rw [List.map_cons]
    simp only
    rw [bestCand_fold_toR lam hlam X y w hw cs c]
    rfl

theorem stumpLabelsAt_toR (lam : ℝ) (hlam : 0 < lam) (f : Bool) (t2 : ℤ)
    (X : List (ℤ × ℤ)) (y : List Int) (w : List ℤ) :
    stumpLabelsAt f ((t2 : ℝ) / 200) (X.map ptR) y (w.map (fun n : ℤ => lam * (n : ℝ)))
      = stumpLabelsAt f t2 X y w := by
  rw [stumpLabelsAt, stumpLabelsAt]
  simp only [wcount_map_scale]
  have hcmp : ∀ a b : ℤ, (lam * (a : ℝ) < lam * (b : ℝ)) ↔ a < b := by
    intro a b
    rw [mul_lt_mul_left hlam]
    exact_mod_cast Iff.rfl
  refine congrArg₂ _ ?_ ?_
  · by_cases h : wcount f t2 true 1 X y w < wcount f t2 true (-1) X y w
    · rw [if_pos ((hcmp _ _).mpr h), if_pos h]
    · rw [if_neg (fun hc => h ((hcmp _ _).mp hc)), if_neg h]
  · by_cases h : wcount f t2 false 1 X y w < wcount f t2 false (-1) X y w
    · rw [if_pos ((hcmp _ _).mpr h), if_pos h]
    · rw [if_neg (fun hc => h ((hcmp _ _).mp hc)), if_neg h]

theorem stumpFitR_toR (lam : ℝ) (hlam : 0 < lam) (X : List (ℤ × ℤ)) (y : List Int)
    (w : List ℤ) (hw : ∀ n ∈ w, 0 ≤ n) :
    stumpFitR (X.map ptR) y (w.map (fun n : ℤ => lam * (n : ℝ)))
      = stumpToR (stumpFitZ X y w) := by
  rw [stumpFitR, stumpFitZ, bestCandR_toR lam hlam X y w hw]
  cases hb : bestCandZ X y w with
  | none =>
    show Stump.mk false 0 1 1 = _
    rw [stumpToR]
    norm_num
  | some c =>
    obtain ⟨f, t2⟩ := c
    show Stump.mk f ((t2 : ℝ) / 200) _ _ = _
    rw [stumpLabelsAt_toR lam hlam, stumpToR]

theorem stumpPredict_toR (s : Stump ℤ) (p : ℤ × ℤ) :
    stumpPredict (stumpToR s) (ptR p) = stumpPredict s p := by
  rw [stumpPredict, stumpPredict, stumpToR]
  simp only
  rw [sideOf_toR]

theorem wdot_scale (lam : ℝ) :
    ∀ (w : List ℤ) (inc : List Bool),
      wdot (w.map (fun n : ℤ => lam * (n : ℝ))) inc = lam * ((zdot w inc : ℤ) : ℝ) := by
  intro w
  induction w with
  | nil => intro inc; simp [wdot, zdot]
  | cons a as ih =>
    intro inc
    cases inc with
    | nil => simp [wdot, zdot]
    | cons b bs =>
      have hih := ih bs
      simp only [List.map_cons, wdot, zdot, List.zipWith_cons_cons, List.sum_cons] at hih ⊢
      rw [hih]
      cases b with
      | true =>
        simp only [maskVal, if_true, mul_one]
        push_cast
        ring
      | false =>
        simp only [maskVal, Bool.false_eq_true, if_false, mul_zero, mul_one]
        push_cast
        ring

theorem sum_scale (lam : ℝ) (w : List ℤ) :
    (w.map (fun n : ℤ => lam * (n : ℝ))).sum = lam * ((w.sum : ℤ) : ℝ) := by
  induction w with
  | nil => simp
  | cons a as ih =>
    simp only [List.map_cons, List.sum_cons, ih]
    push_cast
    ring

theorem update_scale (lam : ℝ) (r : ℝ) (i t : ℤ) (hi : ((i : ℤ) : ℝ) ≠ 0)
    (hr : r = ((t - i : ℤ) : ℝ) / ((i : ℤ) : ℝ)) :
    ∀ (w : List ℤ) (inc : List Bool),
      List.zipWith (fun wi b => if b then wi * r else wi)
          (w.map (fun n : ℤ => lam * (n : ℝ))) inc
        = (List.zipWith (fun wi b => if b then wi * (t - i) else wi * i) w inc).map
            (fun n : ℤ => (lam / ((i : ℤ) : ℝ)) * (n : ℝ)) := by
  intro w
  induction w with
  | nil => intro inc; simp
  | cons a as ih =>
    intro inc
    cases inc with
    | nil => simp
    | cons b bs =>
      have hih := ih bs
      simp only [List.map_cons, List.zipWith_cons_cons] at hih ⊢
      rw [hih]
      refine congrArg₂ _ ?_ rfl
      cases b with
      | true =>
        simp only [if_true]
        rw [hr]
        push_cast
        field_simp
        ring
      | false =>
        simp only [Bool.false_eq_true, if_false]
        push_cast
        field_simp
        ring

set_option maxHeartbeats 1600000
set_option maxRecDepth 16000

/-- Round-by-round evaluation of the integer shadow pipeline on the concrete
dataset; each lemma is checked by kernel computation. -/
theorem zloop0 : zLoop Xz yv 0 = zW0 := by decide

theorem zstump0 : zStump Xz yv 0 = zST0 := by
  rw [zStump, zloop0]
  decide

theorem zpreds0 : zPreds Xz yv 0 = zP0 := by
  rw [zPreds, zstump0]
  decide

theorem zIval0 : zI Xz yv 0 = 6 := by
  rw [zI, zInc, zpreds0, zloop0]
  decide

theorem zSval0 : zS Xz yv 0 = 23 := by
  rw [zS, zloop0]
  decide

theorem zpos0 : ∀ n ∈ zLoop Xz yv 0, (0 : ℤ) < n := by
  rw [zloop0]
  decide

theorem zcond0 : 0 < zI Xz yv 0 ∧ zI Xz yv 0 < zS Xz yv 0 := by
  rw [zIval0, zSval0]
  decide

theorem zloop1 : zLoop Xz yv 1 = zW1 := by
  show zstep Xz yv (zLoop Xz yv 0) = zW1
  rw [zloop0]
  decide

theorem zstump1 : zStump Xz yv 1 = zST1 := by
  rw [zStump, zloop1]
  decide

theorem zpreds1 : zPreds Xz yv 1 = zP1 := by
  rw [zPreds, zstump1]
  decide

theorem zIval1 : zI Xz yv 1 = 60 := by
  rw [zI, zInc, zpreds1, zloop1]
  decide

theorem zSval1 : zS Xz yv 1 = 204 := by
  rw [zS, zloop1]
  decide

theorem zpos1 : ∀ n ∈ zLoop Xz yv 1, (0 : ℤ) < n := by
  rw [zloop1]
  decide

theorem zcond1 : 0 < zI Xz yv 1 ∧ zI Xz yv 1 < zS Xz yv 1 := by
  rw [zIval1, zSval1]
  decide

theorem zloop2 : zLoop Xz yv 2 = zW2 := by
  show zstep Xz yv (zLoop Xz yv 1) = zW2
  rw [zloop1]
  decide

theorem zstump2 : zStump Xz yv 2 = zST2 := by
  rw [zStump, zloop2]
  decide

theorem zpreds2 : zPreds Xz yv 2 = zP2 := by
  rw [zPreds, zstump2]
  decide

theorem zIval2 : zI Xz yv 2 = 5220 := by
  rw [zI, zInc, zpreds2, zloop2]
  decide

theorem zSval2 : zS Xz yv 2 = 17280 := by
  rw [zS, zloop2]
  decide

theorem zpos2 : ∀ n ∈ zLoop Xz yv 2, (0 : ℤ) < n := by
  rw [zloop2]
  decide

theorem zcond2 : 0 < zI Xz yv 2 ∧ zI Xz yv 2 < zS Xz yv 2 := by
  rw [zIval2, zSval2]
  decide

theorem zloop3 : zLoop Xz yv 3 = zW3 := by
  show zstep Xz yv (zLoop Xz yv 2) = zW3
  rw [zloop2]
  decide

theorem zstump3 : zStump Xz yv 3 = zST3 := by
  rw [zStump, zloop3]
  decide

theorem zpreds3 : zPreds Xz yv 3 = zP3 := by
  rw [zPreds, zstump3]
  decide

theorem zIval3 : zI Xz yv 3 = 39560400 := by
  rw [zI, zInc, zpreds3, zloop3]
  decide

theorem zSval3 : zS Xz yv 3 = 125906400 := by
  rw [zS, zloop3]
  decide

theorem zpos3 : ∀ n ∈ zLoop Xz yv 3, (0 : ℤ) < n := by
  rw [zloop3]
  decide

theorem zcond3 : 0 < zI Xz yv 3 ∧ zI Xz yv 3 < zS Xz yv 3 := by
  rw [zIval3, zSval3]
  decide

theorem zloop4 : zLoop Xz yv 4 = zW4 := by
  show zstep Xz yv (zLoop Xz yv 3) = zW4
  rw [zloop3]
  decide

theorem zstump4 : zStump Xz yv 4 = zST4 := by
  rw [zStump, zloop4]
  decide

theorem zpreds4 : zPreds Xz yv 4 = zP4 := by
  rw [zPreds, zstump4]
  decide

theorem zIval4 : zI Xz yv 4 = 1784205688320000 := by
  rw [zI, zInc, zpreds4, zloop4]
  decide

theorem zSval4 : zS Xz yv 4 = 6831764596800000 := by
  rw [zS, zloop4]
  decide

theorem zpos4 : ∀ n ∈ zLoop Xz yv 4, (0 : ℤ) < n := by
  rw [zloop4]
  decide

theorem zcond4 : 0 < zI Xz yv 4 ∧ zI Xz yv 4 < zS Xz yv 4 := by
  rw [zIval4, zSval4]
  decide

theorem zloop5 : zLoop Xz yv 5 = zW5 := by
  show zstep Xz yv (zLoop Xz yv 4) = zW5
  rw [zloop4]
  decide

theorem zstump5 : zStump Xz yv 5 = zST5 := by
  rw [zStump, zloop5]
  decide

theorem zpreds5 : zPreds Xz yv 5 = zP5 := by
  rw [zPreds, zstump5]
  decide

theorem zIval5 : zI Xz yv 5 = 5065615277253192985804800000000 := by
  rw [zI, zInc, zpreds5, zloop5]
  decide

theorem zSval5 : zS Xz yv 5 = 18011766633280612569907200000000 := by
  rw [zS, zloop5]
  decide

theorem zpos5 : ∀ n ∈ zLoop Xz yv 5, (0 : ℤ) < n := by
  rw [zloop5]
  decide

theorem zcond5 : 0 < zI Xz yv 5 ∧ zI Xz yv 5 < zS Xz yv 5 := by
  rw [zIval5, zSval5]
  decide

theorem zloop6 : zLoop Xz yv 6 = zW6 := by
  show zstep Xz yv (zLoop Xz yv 5) = zW6
  rw [zloop5]
  decide

theorem zstump6 : zStump Xz yv 6 = zST6 := by
  rw [zStump, zloop6]
  decide

theorem zpreds6 : zPreds Xz yv 6 = zP6 := by
  rw [zPreds, zstump6]
  decide

theorem zIval6 : zI Xz yv 6 = 45620340113932790317769865608980981068626657280000000000000000 := by
  rw [zI, zInc, zpreds6, zloop6]
  decide

theorem zSval6 : zS Xz yv 6 = 131160444181449274785263092980084024965899223040000000000000000 := by
  rw [zS, zloop6]
  decide

theorem zpos6 : ∀ n ∈ zLoop Xz yv 6, (0 : ℤ) < n := by
  rw [zloop6]
  decide

theorem zcond6 : 0 < zI Xz yv 6 ∧ zI Xz yv 6 < zS Xz yv 6 := by
  rw [zIval6, zSval6]
  decide

theorem zloop7 : zLoop Xz yv 7 = zW7 := by
  show zstep Xz yv (zLoop Xz yv 6) = zW7
  rw [zloop6]
  decide

theorem zstump7 : zStump Xz yv 7 = zST7 := by
  rw [zStump, zloop7]
  decide

theorem zpreds7 : zPreds Xz yv 7 = zP7 := by
  rw [zPreds, zstump7]
  decide

theorem zIval7 : zI Xz yv 7 = 2293135163604422650540576194666365594255320643823646176061223920349920540147621173588393984000000000000000000000000000000000 := by
  rw [zI, zInc, zpreds7, zloop7]
  decide

theorem zSval7 : zS Xz yv 7 = 7804737281882615434992657600906310776762329583408580686864262459847473380029460914315565465600000000000000000000000000000000 := by
  rw [zS, zloop7]
  decide

theorem zpos7 : ∀ n ∈ zLoop Xz yv 7, (0 : ℤ) < n := by
  rw [zloop7]
  decide

theorem zcond7 : 0 < zI Xz yv 7 ∧ zI Xz yv 7 < zS Xz yv 7 := by
  rw [zIval7, zSval7]
  decide

theorem zloop8 : zLoop Xz yv 8 = zW8 := by
  show zstep Xz yv (zLoop Xz yv 7) = zW8
  rw [zloop7]
  decide

theorem zstump8 : zStump Xz yv 8 = zST8 := by
  rw [zStump, zloop8]
  decide

theorem zpreds8 : zPreds Xz yv 8 = zP8 := by
  rw [zPreds, zstump8]
  decide

theorem zIval8 : zI Xz yv 8 = 7949855763025155089357194263173000568034612831302480732944348881561716580552274589671825364765835994811287322091671746852365418632225522494258622517470386397029754428608504485065523200000000000000000000000000000000000000000000000000000000000000000 := by
  rw [zI, zInc, zpreds8, zloop8]
  decide

theorem zSval8 : zS Xz yv 8 = 25277697250440692102349414361581234128474498863486037580482037231479487470634008974784511835473989178586731078840575889344293466187110294841017629795633094293645530763854803819613388800000000000000000000000000000000000000000000000000000000000000000 := by
  rw [zS, zloop8]
  decide

theorem zpos8 : ∀ n ∈ zLoop Xz yv 8, (0 : ℤ) < n := by
  rw [zloop8]
  decide

theorem zcond8 : 0 < zI Xz yv 8 ∧ zI Xz yv 8 < zS Xz yv 8 := by
  rw [zIval8, zSval8]
  decide

theorem zloop9 : zLoop Xz yv 9 = zW9 := by
  show zstep Xz yv (zLoop Xz yv 8) = zW9
  rw [zloop8]
  decide

theorem zstump9 : zStump Xz yv 9 = zST9 := by
  rw [zStump, zloop9]
  decide

theorem zpreds9 : zPreds Xz yv 9 = zP9 := by
  rw [zPreds, zstump9]
  decide

theorem zIval9 : zI Xz yv 9 = 71140546350055935434961174584547317876191690565632933168821247700904782679315244854520225610891588812344728181559388245301833197785570000776492952722939821413839820285805319725849954118112073665069569413911550507523836714443388565204353081392015768221365894675079314009593911267256825127722076959199888410025250838559317980653393383173029063251386013351817133424640000000000000000000000000000000000000000000000000000000000000000000000000000000000000000000000000000000000000000000000000000000000 := by
  rw [zI, zInc, zpreds9, zloop9]
  decide

theorem zSval9 : zS Xz yv 9 = 275507681019033564598918485219031358176475361107721479619491524689988491164056118027163344860622049965641448226437532058498395000113386911539582115564048845607886163560482811510131919993638100873202746841668147942486685181169033230798864258829331083649973612861988409397510090404555239583859200296738176626834473615510133942333000326492534280486757570669325414563840000000000000000000000000000000000000000000000000000000000000000000000000000000000000000000000000000000000000000000000000000000000 := by
  rw [zS, zloop9]
  decide

theorem zpos9 : ∀ n ∈ zLoop Xz yv 9, (0 : ℤ) < n := by
  rw [zloop9]
  decide

theorem zcond9 : 0 < zI Xz yv 9 ∧ zI Xz yv 9 < zS Xz yv 9 := by
  rw [zIval9, zSval9]
  decide


theorem bridge_step (m : ℕ) (lam : ℝ) (hlam : 0 < lam)
    (hw : (adaLoop stumpFitR stumpPredict (Xz.map ptR) yv 1 m).sample_weight
        = (zLoop Xz yv m).map (fun n : ℤ => lam * (n : ℝ)))
    (hpos : ∀ n ∈ zLoop Xz yv m, (0 : ℤ) < n)
    (hI : 0 < zI Xz yv m) (hIS : zI Xz yv m < zS Xz yv m) :
    (adaLoop stumpFitR stumpPredict (Xz.map ptR) yv 1 (m + 1)).sample_weight
        = (zLoop Xz yv (m + 1)).map
            (fun n : ℤ => (lam / ((zI Xz yv m : ℤ) : ℝ)) * (n : ℝ))
    ∧ (adaLoop stumpFitR stumpPredict (Xz.map ptR) yv 1 (m + 1)).y_predict_list
        = (adaLoop stumpFitR stumpPredict (Xz.map ptR) yv 1 m).y_predict_list
            ++ [zPreds Xz yv m]
    ∧ (adaLoop stumpFitR stumpPredict (Xz.map ptR) yv 1 (m + 1)).estimator_weight_list
        = (adaLoop stumpFitR stumpPredict (Xz.map ptR) yv 1 m).estimator_weight_list
            ++ [Real.log (((zS Xz yv m - zI Xz yv m : ℤ) : ℝ) / ((zI Xz yv m : ℤ) : ℝ))] := by
  have hfit : stumpFitR (Xz.map ptR) yv
      (adaLoop stumpFitR stumpPredict (Xz.map ptR) yv 1 m).sample_weight
      = stumpToR (zStump Xz yv m) := by
    rw [hw]
    exact stumpFitR_toR lam hlam Xz yv _ (fun n hn => (hpos n hn).le)
  have hrow : (Xz.map ptR).map (stumpPredict (stumpToR (zStump Xz yv m)))
      = zPreds Xz yv m := by
    rw [List.map_map, zPreds]
    refine List.map_congr_left ?_
    intro p _
    exact stumpPredict_toR _ p
  have hinc : roundIncorrect stumpFitR stumpPredict (Xz.map ptR) yv 1 m
      = zInc Xz yv m := by
    rw [roundIncorrect, hfit, hrow, zInc]
  have hI0 : (0 : ℝ) < ((zI Xz yv m : ℤ) : ℝ) := by exact_mod_cast hI
  have hS0 : (0 : ℝ) < ((zS Xz yv m - zI Xz yv m : ℤ) : ℝ) := by
    exact_mod_cast sub_pos.mpr hIS
  have hSpos : (0 : ℝ) < ((zS Xz yv m : ℤ) : ℝ) := by exact_mod_cast lt_trans hI hIS
  have herr : roundError stumpFitR stumpPredict (Xz.map ptR) yv 1 m
      = ((zI Xz yv m : ℤ) : ℝ) / ((zS Xz yv m : ℤ) : ℝ) := by
    rw [roundError, hinc, hw, estimator_error, sum_scale, wdot_scale,
      mul_div_mul_left _ _ hlam.ne']
    rfl
  have halpha : roundAlpha stumpFitR stumpPredict (Xz.map ptR) yv 1 m
      = Real.log (((zS Xz yv m - zI Xz yv m : ℤ) : ℝ) / ((zI Xz yv m : ℤ) : ℝ)) := by
    rw [roundAlpha, herr, estimator_weight, one_mul]
    congr 1
    push_cast
    field_simp
  have hstepz : zLoop Xz yv (m + 1)
      = List.zipWith
          (fun wi b => if b then wi * (zS Xz yv m - zI Xz yv m) else wi * zI Xz yv m)
          (zLoop Xz yv m) (zInc Xz yv m) := rfl
  refine ⟨?_, ?_, ?_⟩
  · rw [adaLoop_step_sample_weight stumpFitR stumpPredict (Xz.map ptR) yv 1 (by decide) m,
      halpha, hinc, hw, Real.exp_log (div_pos hS0 hI0), hstepz]
    exact update_scale lam _ (zI Xz yv m) (zS Xz yv m) hI0.ne' rfl (zLoop Xz yv m)
      (zInc Xz yv m)
  · show (adaLoop stumpFitR stumpPredict (Xz.map ptR) yv 1 m).y_predict_list
        ++ [(Xz.map ptR).map (stumpPredict (stumpFitR (Xz.map ptR) yv
          (adaLoop stumpFitR stumpPredict (Xz.map ptR) yv 1 m).sample_weight))] = _
    rw [hfit, hrow]
  · show (adaLoop stumpFitR stumpPredict (Xz.map ptR) yv 1 m).estimator_weight_list
        ++ [roundAlpha stumpFitR stumpPredict (Xz.map ptR) yv 1 m] = _
    rw [halpha]

theorem bridge_chain : ∀ m : ℕ,
    (∀ k, k < m → (0 < zI Xz yv k ∧ zI Xz yv k < zS Xz yv k)
        ∧ (∀ n ∈ zLoop Xz yv k, (0 : ℤ) < n)) →
    ∃ lam : ℝ, 0 < lam ∧
      (adaLoop stumpFitR stumpPredict (Xz.map ptR) yv 1 m).sample_weight
        = (zLoop Xz yv m).map (fun n : ℤ => lam * (n : ℝ))
      ∧ (adaLoop stumpFitR stumpPredict (Xz.map ptR) yv 1 m).y_predict_list
        = (List.range m).map (fun k => zPreds Xz yv k)
      ∧ (adaLoop stumpFitR stumpPredict (Xz.map ptR) yv 1 m).estimator_weight_list
        = (List.range m).map (fun k =>
            Real.log (((zS Xz yv k - zI Xz yv k : ℤ) : ℝ) / ((zI Xz yv k : ℤ) : ℝ))) := by
  intro m
  induction m with
  | zero =>
    intro _
    refine ⟨1 / 23, by norm_num, ?_, rfl, rfl⟩
    show List.replicate yv.length ((1 : ℝ) / (yv.length : ℕ))
        = (List.replicate yv.length 1).map (fun n : ℤ => (1 / 23 : ℝ) * (n : ℝ))
    rw [List.map_replicate]
    norm_num [yv]
  | succ m ih =>
    intro hcond
    obtain ⟨lam, hlam, hw, hyp, hal⟩ := ih (fun k hk => hcond k (hk.trans (Nat.lt_succ_self m)))
    have hc := hcond m (Nat.lt_succ_self m)
    obtain ⟨hsw, hypred, halist⟩ := bridge_step m lam hlam hw hc.2 hc.1.1 hc.1.2
    have hI0 : (0 : ℝ) < ((zI Xz yv m : ℤ) : ℝ) := by exact_mod_cast hc.1.1
    refine ⟨lam / ((zI Xz yv m : ℤ) : ℝ), div_pos hlam hI0, hsw, ?_, ?_⟩
    · rw [hypred, hyp, List.range_succ, List.map_append, List.map_cons, List.map_nil]
    · rw [halist, hal, List.range_succ, List.map_append, List.map_cons, List.map_nil]

theorem uProd_pos (i : ℕ) :
    ∀ (ypl : List (List Int)) (ab : List (ℤ × ℤ)),
      (∀ q ∈ ab, 0 < q.1 ∧ 0 < q.2) → 0 < uProd i ypl ab := by
  intro ypl
  induction ypl with
  | nil => intro ab _; simp [uProd]
  | cons pk pks ih =>
    intro ab hab
    cases ab with
    | nil => simp [uProd]
    | cons q qs =>
      have hq := hab q (by simp)
      have hih := ih qs (fun r hr => hab r (by simp [hr]))
      simp only [uProd, List.zipWith_cons_cons, List.prod_cons] at hih ⊢
      refine mul_pos ?_ hih
      by_cases h : pk.getD i 0 = 1
      · rw [if_pos h]; exact hq.1
      · rw [if_neg h]; exact hq.2

theorem vProd_pos (i : ℕ) :
    ∀ (ypl : List (List Int)) (ab : List (ℤ × ℤ)),
      (∀ q ∈ ab, 0 < q.1 ∧ 0 < q.2) → 0 < vProd i ypl ab := by
  intro ypl
  induction ypl with
  | nil => intro ab _; simp [vProd]
  | cons pk pks ih =>
    intro ab hab
    cases ab with
    | nil => simp [vProd]
    | cons q qs =>
      have hq := hab q (by simp)
      have hih := ih qs (fun r hr => hab r (by simp [hr]))
      simp only [vProd, List.zipWith_cons_cons, List.prod_cons] at hih ⊢
      refine mul_pos ?_ hih
      by_cases h : pk.getD i 0 = 1
      · rw [if_pos h]; exact hq.2
      · rw [if_neg h]; exact hq.1

theorem uProd_cons (i : ℕ) (pk : List Int) (pks : List (List Int)) (q : ℤ × ℤ)
    (qs : List (ℤ × ℤ)) :
    uProd i (pk :: pks) (q :: qs)
      = (if pk.getD i 0 = 1 then q.1 else q.2) * uProd i pks qs := rfl

theorem vProd_cons (i : ℕ) (pk : List Int) (pks : List (List Int)) (q : ℤ × ℤ)
    (qs : List (ℤ × ℤ)) :
    vProd i (pk :: pks) (q :: qs)
      = (if pk.getD i 0 = 1 then q.2 else q.1) * vProd i pks qs := rfl

/-- The confidence-weighted vote total is the logarithm of a ratio of two
integer products: over the rounds voting `+1` on the point the odds
numerators accumulate, over the rounds voting `-1` the denominators do. -/
theorem votedSum_log (i : ℕ) :
    ∀ (ypl : List (List Int)) (ab : List (ℤ × ℤ)),
      (∀ q ∈ ab, 0 < q.1 ∧ 0 < q.2) →
      (∀ pk ∈ ypl, pk.getD i 0 = 1 ∨ pk.getD i 0 = -1) →
      votedSum ypl (ab.map (fun q => Real.log ((q.1 : ℝ) / (q.2 : ℝ)))) i
        = Real.log ((uProd i ypl ab : ℤ) : ℝ)
            - Real.log ((vProd i ypl ab : ℤ) : ℝ) := by
  intro ypl
  induction ypl with
  | nil => intro ab _ _; simp [votedSum, uProd, vProd]
  | cons pk pks ih =>
    intro ab hab hlab
    cases ab with
    | nil => simp [votedSum, uProd, vProd]
    | cons q qs =>
      have hq := hab q (by simp)
      have hq1 : ((q.1 : ℤ) : ℝ) ≠ 0 := by
        exact_mod_cast hq.1.ne'
      have hq2 : ((q.2 : ℤ) : ℝ) ≠ 0 := by
        exact_mod_cast hq.2.ne'
      have hup : 0 < uProd i pks qs := uProd_pos i pks qs (fun r hr => hab r (by simp [hr]))
      have hvp : 0 < vProd i pks qs := vProd_pos i pks qs (fun r hr => hab r (by simp [hr]))
      have hupne : ((uProd i pks qs : ℤ) : ℝ) ≠ 0 := by exact_mod_cast hup.ne'
      have hvpne : ((vProd i pks qs : ℤ) : ℝ) ≠ 0 := by exact_mod_cast hvp.ne'
      have hih := ih qs (fun r hr => hab r (by simp [hr]))
        (fun pk2 h2 => hlab pk2 (by simp [h2]))
      simp only [votedSum, List.map_cons, List.zipWith_cons_cons, List.sum_cons] at hih ⊢
      rw [hih]
      rcases hlab pk (by simp) with h | h
      · rw [uProd_cons, vProd_cons, if_pos h, if_pos h, h]
        push_cast
        rw [Real.log_mul hq1 hupne, Real.log_mul hq2 hvpne,
          Real.log_div hq1 hq2]
        ring
      · have hne : ¬ pk.getD i 0 = 1 := by rw [h]; decide
        rw [uProd_cons, vProd_cons, if_neg hne, if_neg hne, h]
        push_cast
        rw [Real.log_mul hq2 hupne, Real.log_mul hq1 hvpne,
          Real.log_div hq1 hq2]
        ring

theorem range_ten : List.range 10 = [0, 1, 2, 3, 4, 5, 6, 7, 8, 9] := by decide

theorem ypl_ten : (List.range 10).map (fun k => zPreds Xz yv k)
    = [zP0, zP1, zP2, zP3, zP4, zP5, zP6, zP7, zP8, zP9] := by
  rw [range_ten]
  simp only [List.map_cons, List.map_nil, zpreds0, zpreds1, zpreds2, zpreds3, zpreds4,
    zpreds5, zpreds6, zpreds7, zpreds8, zpreds9]

theorem alphas_ten : (List.range 10).map (fun k =>
      Real.log (((zS Xz yv k - zI Xz yv k : ℤ) : ℝ) / ((zI Xz yv k : ℤ) : ℝ)))
    = voteFactors.map (fun q => Real.log ((q.1 : ℝ) / (q.2 : ℝ))) := by
  rw [range_ten]
  simp only [List.map_cons, List.map_nil, zIval0, zIval1, zIval2, zIval3, zIval4,
    zIval5, zIval6, zIval7, zIval8, zIval9, zSval0, zSval1, zSval2, zSval3, zSval4,
    zSval5, zSval6, zSval7, zSval8, zSval9, voteFactors]
  norm_num

theorem yv_len : yv.length = 23 := rfl

theorem voteFactors_pos : ∀ q ∈ voteFactors, 0 < q.1 ∧ 0 < q.2 := by decide

theorem vote_labels : ∀ i, i < 23 →
    ∀ pk ∈ [zP0, zP1, zP2, zP3, zP4, zP5, zP6, zP7, zP8, zP9],
      pk.getD i 0 = 1 ∨ pk.getD i 0 = -1 := by decide

theorem vote_facts : ∀ i, i < 23 →
    (yv.getD i 0 = 1
        ∧ vProd i [zP0, zP1, zP2, zP3, zP4, zP5, zP6, zP7, zP8, zP9] voteFactors
            < uProd i [zP0, zP1, zP2, zP3, zP4, zP5, zP6, zP7, zP8, zP9] voteFactors)
    ∨ (yv.getD i 0 = -1
        ∧ uProd i [zP0, zP1, zP2, zP3, zP4, zP5, zP6, zP7, zP8, zP9] voteFactors
            < vProd i [zP0, zP1, zP2, zP3, zP4, zP5, zP6, zP7, zP8, zP9] voteFactors) := by
  decide

theorem c7_conds : ∀ k, k < 10 →
    (0 < zI Xz yv k ∧ zI Xz yv k < zS Xz yv k)
    ∧ (∀ n ∈ zLoop Xz yv k, (0 : ℤ) < n) := by
  intro k hk
  interval_cases k
  · exact ⟨zcond0, zpos0⟩
  · exact ⟨zcond1, zpos1⟩
  · exact ⟨zcond2, zpos2⟩
  · exact ⟨zcond3, zpos3⟩
  · exact ⟨zcond4, zpos4⟩
  · exact ⟨zcond5, zpos5⟩
  · exact ⟨zcond6, zpos6⟩
  · exact ⟨zcond7, zpos7⟩
  · exact ⟨zcond8, zpos8⟩
  · exact ⟨zcond9, zpos9⟩

theorem getD_map_range (n : ℕ) (f : ℕ → ℝ) (i : ℕ) (hi : i < n) :
    ((List.range n).map f).getD i 0 = f i := by
  rw [List.getD_eq_getElem _ _ (by simpa using hi), List.getElem_map, List.getElem_range]

theorem c7_preds : ∀ i, i < yv.length →
    (predsOf (adaLoop stumpFitR stumpPredict (Xz.map ptR) yv 1 10) yv.length).getD i 0
      = ((yv.getD i 0 : ℤ) : ℝ) := by
  obtain ⟨lam, hlam, hw, hyp, hal⟩ := bridge_chain 10 c7_conds
  intro i hi
  rw [predsOf, getD_map_range yv.length _ i hi,
    hyp, hal, ypl_ten, alphas_ten,
    votedSum_log i [zP0, zP1, zP2, zP3, zP4, zP5, zP6, zP7, zP8, zP9] voteFactors
      voteFactors_pos (vote_labels i (yv_len ▸ hi))]
  have hupos := uProd_pos i [zP0, zP1, zP2, zP3, zP4, zP5, zP6, zP7, zP8, zP9]
    voteFactors voteFactors_pos
  have hvpos := vProd_pos i [zP0, zP1, zP2, zP3, zP4, zP5, zP6, zP7, zP8, zP9]
    voteFactors voteFactors_pos
  rcases vote_facts i (yv_len ▸ hi) with ⟨hy, hlt⟩ | ⟨hy, hlt⟩
  · have hlog : Real.log ((vProd i [zP0, zP1, zP2, zP3, zP4, zP5, zP6, zP7, zP8, zP9]
        voteFactors : ℤ) : ℝ)
        < Real.log ((uProd i [zP0, zP1, zP2, zP3, zP4, zP5, zP6, zP7, zP8, zP9]
        voteFactors : ℤ) : ℝ) :=
      Real.log_lt_log (by exact_mod_cast hvpos) (by exact_mod_cast hlt)
    rw [rsign, if_pos (sub_pos.mpr hlog), hy]
    norm_num
  · have hlog : Real.log ((uProd i [zP0, zP1, zP2, zP3, zP4, zP5, zP6, zP7, zP8, zP9]
        voteFactors : ℤ) : ℝ)
        < Real.log ((vProd i [zP0, zP1, zP2, zP3, zP4, zP5, zP6, zP7, zP8, zP9]
        voteFactors : ℤ) : ℝ) :=
      Real.log_lt_log (by exact_mod_cast hupos) (by exact_mod_cast hlt)
    have hneg : Real.log ((uProd i [zP0, zP1, zP2, zP3, zP4, zP5, zP6, zP7, zP8, zP9]
        voteFactors : ℤ) : ℝ)
        - Real.log ((vProd i [zP0, zP1, zP2, zP3, zP4, zP5, zP6, zP7, zP8, zP9]
        voteFactors : ℤ) : ℝ) < 0 := sub_neg.mpr hlog
    rw [rsign, if_neg (fun hc => absurd hc (not_lt.mpr hneg.le)), if_pos hneg, hy]
    norm_num

theorem acc_sum_ones :
    ∀ (preds : List ℝ) (ys : List Int),
      (∀ i, i < ys.length → preds.getD i 0 = ((ys.getD i 0 : ℤ) : ℝ)) →
      preds.length = ys.length →
      (List.zipWith (fun p (yi : Int) => if p = (yi : ℝ) then (1 : ℝ) else 0) preds ys).sum
        = (ys.length : ℝ) := by
  intro preds
  induction preds with
  | nil =>
    intro ys h hlen
    cases ys with
    | nil => simp
    | cons a as => simp at hlen
  | cons p ps ih =>
    intro ys h hlen
    cases ys with
    | nil => simp at hlen
    | cons a as =>
      have h0 := h 0 (by simp)
      simp only [List.getD_cons_zero] at h0
      have hih := ih as
        (fun i hi => by
          have hstep := h (i + 1) (by simpa using Nat.succ_lt_succ hi)
          simpa [List.getD_cons_succ] using hstep)
        (by simpa using hlen)
      simp only [List.zipWith_cons_cons, List.sum_cons, hih]
      rw [h0, if_pos rfl]
      simp only [List.length_cons]
      push_cast
      ring

theorem c7_accuracy_core :
    accuracyOf (predsOf (adaLoop stumpFitR stumpPredict (Xz.map ptR) yv 1 10) yv.length)
      yv = 1 := by
  rw [accuracyOf, acc_sum_ones _ _ c7_preds (by simp [predsOf])]
  rw [yv_len]
  norm_num

theorem X23_eq : X23 = Xz.map ptR := by
  norm_num [X23, Xz, ptR]

/-- C7: on the source's 23-point dataset (13 positive, 10 negative labels),
running the embedded trainer with the spec-modelled depth-1 decision stump,
`M = 10` rounds and `learning_rate = 1` classifies every training point
correctly, so the printed training accuracy is exactly 1. -/
theorem claim_C7 :
    Adaboost_printed_accuracy stumpFitR stumpPredict X23 yv 10 1 = 1
    ∧ ∀ i (hi : i < yv.length),
        (predsOf (adaLoop stumpFitR stumpPredict X23 yv 1 10) yv.length).getD i 0
          = ((yv.get ⟨i, hi⟩ : Int) : ℝ) := by
  constructor
  · show accuracyOf
      (predsOf (adaLoop stumpFitR stumpPredict X23 yv 1 10) yv.length) yv = 1
    rw [X23_eq]
    exact c7_accuracy_core
  · intro i hi
    rw [X23_eq, c7_preds i hi, List.getD_eq_getElem yv 0 hi]
    rfl

theorem claim_C7_witness :
    Adaboost_printed_accuracy stumpFitR stumpPredict X23 yv 10 1 = 1
    ∧ (predsOf (adaLoop stumpFitR stumpPredict X23 yv 1 10) yv.length).getD 0 0
        = ((yv.get ⟨0, by decide⟩ : Int) : ℝ) :=
  ⟨claim_C7.1, claim_C7.2 0 (by decide)⟩

end Boosting
